import Mathlib

/-!
Verification of the SupportIQ A2A orchestration pipeline
(`orchestration/a2a_pipeline.py`, `orchestration/a2a_client.py`).

The Python source is shallowly embedded: JSON values become the inductive
`Json` (numbers are modelled as rationals, standing for the floats of the
source), Python dictionary/string operations that can raise become
`Except PyErr` computations, and every external interaction (provider
responses, HTTP outcomes, clock readings) is supplied by an explicit
environment record.  Side effects (Elasticsearch updates, workflow
triggers, Slack notifications, trace writes) are collected in an ordered
log so that claims about which effects fire can be stated and proved.
-/

set_option autoImplicit false

namespace SupportIQ

/-- A single quote character, used when rendering Python reprs and
error messages. -/
def sq : String := String.singleton (Char.ofNat 39)

/-- JSON values as produced by `json.loads` / consumed by `json.dumps`.
Numbers are modelled as rationals in place of IEEE floats; every numeric
literal appearing in the source (thresholds, scores) is exactly
representable. -/
inductive Json where
  | null
  | bool (b : Bool)
  | num (q : ℚ)
  | str (s : String)
  | arr (xs : List Json)
  | obj (fs : List (String × Json))
  deriving Inhabited

namespace Json

mutual

/-- Structural equality of JSON values (Python `==` on parsed JSON data). -/
def eqVal : Json → Json → Bool
  | .bool p, .bool q => p == q
  | .num p, .num q => p == q
  | .str p, .str q => p == q
  | .arr ps, .arr qs => eqArr ps qs
  | .obj ps, .obj qs => eqObj ps qs
  | .null, .null => true
  | _, _ => false

/-- Elementwise equality of two JSON arrays. -/
def eqArr : List Json → List Json → Bool
  | p :: ps, q :: qs => eqVal p q && eqArr ps qs
  | ps, qs => ps.isEmpty && qs.isEmpty

/-- Pairwise equality of two field lists, keys and values alike. -/
def eqObj : List (String × Json) → List (String × Json) → Bool
  | (a, x) :: ps, (b, y) :: qs => a == b && eqVal x y && eqObj ps qs
  | ps, qs => ps.isEmpty && qs.isEmpty

end

instance : BEq Json := ⟨eqVal⟩

/-- First-match association lookup on an object's field list
(Python dicts have unique keys, so first match is the match). -/
def lookup : List (String × Json) → String → Option Json
  | [], _ => none
  | (k, v) :: rest, key => if k = key then some v else lookup rest key

/-- Python truthiness: `bool(x)` for each JSON-representable value. -/
def truthy : Json → Bool
  | .null => false
  | .bool b => b
  | .num q => q ≠ 0
  | .str s => s ≠ ""
  | .arr xs => !xs.isEmpty
  | .obj fs => !fs.isEmpty

/-- `d[k] = v` / `{**d, k: v}` update: overwrite an existing key in place,
else append (Python dicts keep insertion order). -/
def setKey (fs : List (String × Json)) (k : String) (v : Json) :
    List (String × Json) :=
  if (fs.map Prod.fst).contains k then
    fs.map (fun p => if p.1 = k then (k, v) else p)
  else fs ++ [(k, v)]

/-- `{**base, k₁: v₁, …}`: merge extra fields into an object's field list. -/
def mergeFields (base : List (String × Json))
    (extra : List (String × Json)) : List (String × Json) :=
  extra.foldl (fun acc p => setKey acc p.1 p.2) base

end Json

/-- The Python exceptions the embedded code can raise. -/
inductive PyErr where
  | keyError (k : String)
  | attributeError (msg : String)
  | typeError (msg : String)
  | valueError (msg : String)
  | runtimeError (msg : String)
  | nameError (msg : String)
  | indexError (msg : String)
  | requestError (msg : String)
  deriving DecidableEq, Repr

/-- `str(e)` for the exceptions above, as recorded in `trace["error"]`.
(`str` of a `KeyError` is the `repr` of its argument, hence the quotes.) -/
def PyErr.toStr : PyErr → String
  | .keyError k => sq ++ k ++ sq
  | .attributeError m => m
  | .typeError m => m
  | .valueError m => m
  | .runtimeError m => m
  | .nameError m => m
  | .indexError m => m
  | .requestError m => m

namespace Json

/-- `x.get(k, default)`: raises `AttributeError` unless `x` is a dict. -/
def pyGetD (j : Json) (k : String) (d : Json) : Except PyErr Json :=
  match j with
  | .obj fs => .ok ((lookup fs k).getD d)
  | _ => .error (.attributeError "object has no attribute get")

/-- `x.get(k)` (default `None`). -/
def pyGet (j : Json) (k : String) : Except PyErr Json :=
  pyGetD j k .null

/-- `x[k]` for a string key: `KeyError` when missing, `TypeError` when
`x` is not a dict. -/
def pySubscript (j : Json) (k : String) : Except PyErr Json :=
  match j with
  | .obj fs =>
    match lookup fs k with
    | some v => .ok v
    | none => .error (.keyError k)
  | _ => .error (.typeError "object is not subscriptable by str")

/-- `x[0]`: head of a list, first character of a string, `KeyError` on a
dict, `TypeError` otherwise. -/
def pyIndex0 (j : Json) : Except PyErr Json :=
  match j with
  | .arr (x :: _) => .ok x
  | .arr [] => .error (.indexError "list index out of range")
  | .str s =>
    match s.data with
    | c :: _ => .ok (.str (String.singleton c))
    | [] => .error (.indexError "string index out of range")
  | .obj fs =>
    match lookup fs "0" with
    | some v => .ok v
    | none => .error (.keyError "0")
  | _ => .error (.typeError "object is not subscriptable")

/-- `x[:n]`: slicing is defined on strings and lists only. -/
def pySlice (j : Json) (n : Nat) : Except PyErr Json :=
  match j with
  | .str s => .ok (.str (s.take n))
  | .arr xs => .ok (.arr (xs.take n))
  | _ => .error (.typeError "unhashable type slice")

/-- Python `==` between a JSON value and a string literal (never raises). -/
def eqStr (j : Json) (s : String) : Bool :=
  match j with
  | .str t => t = s
  | _ => false

/-- `{**j, extra…}`: `TypeError` unless `j` is a dict. -/
def pyMerge (j : Json) (extra : List (String × Json)) : Except PyErr Json :=
  match j with
  | .obj fs => .ok (.obj (mergeFields fs extra))
  | _ => .error (.typeError "argument of type mapping required")

/-- Substring test on character lists (Python `needle in haystack`). -/
def charInfix (needle : List Char) : List Char → Bool
  | [] => needle.isEmpty
  | c :: rest => needle.isPrefixOf (c :: rest) || charInfix needle rest

/-- `"k" in j`: key membership for dicts, element membership for lists,
substring test for strings, `TypeError` otherwise. -/
def pyInStr (k : String) (j : Json) : Except PyErr Bool :=
  match j with
  | .obj fs => .ok ((fs.map Prod.fst).contains k)
  | .arr xs => .ok (xs.contains (.str k))
  | .str s => .ok (charInfix k.data s.data)
  | _ => .error (.typeError "argument of type is not iterable")

end Json

/-- Left-pad a digit string with zeros to the given width. -/
def padZeros (s : String) (k : Nat) : String :=
  String.mk (List.replicate (k - s.length) '0') ++ s

/-- Smallest exponent `k ≤ 27` with `d ∣ 10^k`, when one exists
(rationals whose denominator divides a power of ten have a finite
decimal expansion). -/
def decExp (d : Nat) : Option Nat :=
  (List.range 28).find? (fun k => d ∣ 10 ^ k)

/-- Render a rational with exactly `k` decimal digits after rounding
(the work behind the `:.1f` / `:.2f` / `:.0%` format codes). -/
def fixedRender (q : ℚ) (k : Nat) : String :=
  let scaled : ℤ := round (q * (10 ^ k : ℕ))
  let sign := if scaled < 0 then "-" else ""
  let n := scaled.natAbs
  if k = 0 then sign ++ toString n
  else sign ++ toString (n / 10 ^ k) ++ "." ++ padZeros (toString (n % 10 ^ k)) k

/-- Render a rational the way the source's floats print: finite decimal
expansion when the denominator allows one, integer form for integers. -/
def ratRender (q : ℚ) : String :=
  if q.den = 1 then toString q.num
  else
    match decExp q.den with
    | some k =>
      let scaled : ℤ := q.num * ((10 ^ k : ℕ) / q.den)
      let sign := if scaled < 0 then "-" else ""
      let n := scaled.natAbs
      sign ++ toString (n / 10 ^ k) ++ "." ++ padZeros (toString (n % 10 ^ k)) k
    | none => toString q.num ++ "/" ++ toString q.den

/-- `f"{x:.digits f}"`: defined on numbers (and booleans, which Python
formats as integers); `ValueError` on strings, `TypeError` otherwise. -/
def fmtFixed (digits : Nat) (j : Json) : Except PyErr String :=
  match j with
  | .num q => .ok (fixedRender q digits)
  | .bool b => .ok (fixedRender (if b then 1 else 0) digits)
  | .str _ => .error (.valueError "Unknown format code f")
  | _ => .error (.typeError "unsupported format string passed")

/-- `f"{x:.0%}"`: percentage formatting, same domain as `fmtFixed`. -/
def fmtPct (j : Json) : Except PyErr String :=
  match j with
  | .num q => .ok (fixedRender (q * 100) 0 ++ "%")
  | .bool b => .ok (fixedRender (if b then (100 : ℚ) else 0) 0 ++ "%")
  | .str _ => .error (.valueError "Unknown format code %")
  | _ => .error (.typeError "unsupported format string passed")

mutual

/-- Python `repr` of a JSON-representable value. -/
def pyRepr : Json → String
  | .null => "None"
  | .bool b => if b then "True" else "False"
  | .num q => ratRender q
  | .str s => sq ++ s ++ sq
  | .arr xs => "[" ++ pyReprList xs ++ "]"
  | .obj fs => "\x7b" ++ pyReprFields fs ++ "\x7d"

def pyReprList : List Json → String
  | [] => ""
  | [x] => pyRepr x
  | x :: rest => pyRepr x ++ ", " ++ pyReprList rest

def pyReprFields : List (String × Json) → String
  | [] => ""
  | [(k, v)] => sq ++ k ++ sq ++ ": " ++ pyRepr v
  | (k, v) :: rest => sq ++ k ++ sq ++ ": " ++ pyRepr v ++ ", " ++ pyReprFields rest

end

/-- Python `str` / f-string interpolation of a JSON-representable value. -/
def pyToStr (j : Json) : String :=
  match j with
  | .str s => s
  | other => pyRepr other

/-- Uppercase hexadecimal digit. -/
def hexDigit (n : Nat) : Char :=
  if n < 10 then Char.ofNat (48 + n) else Char.ofNat (55 + n)

/-- Four-digit hexadecimal rendering for `\uXXXX` escapes. -/
def hex4 (n : Nat) : String :=
  String.mk [hexDigit (n / 4096 % 16), hexDigit (n / 256 % 16),
             hexDigit (n / 16 % 16), hexDigit (n % 16)]

/-- JSON string escaping as `json.dumps` performs it (`ensure_ascii`
escapes every non-ASCII character, with surrogate pairs beyond the BMP). -/
def jsonEscapeChar (c : Char) : String :=
  if c = Char.ofNat 34 then "\\\""
  else if c = '\\' then "\\\\"
  else if c = '\n' then "\\n"
  else if c = '\t' then "\\t"
  else if c = Char.ofNat 13 then "\\r"
  else if c = Char.ofNat 8 then "\\b"
  else if c = Char.ofNat 12 then "\\f"
  else if 32 ≤ c.toNat ∧ c.toNat < 127 then String.singleton c
  else if c.toNat < 65536 then "\\u" ++ hex4 c.toNat
  else
    let v := c.toNat - 65536
    "\\u" ++ hex4 (55296 + v / 1024) ++ "\\u" ++ hex4 (56320 + v % 1024)

/-- A JSON string literal with quotes and escapes. -/
def jsonQuote (s : String) : String :=
  "\"" ++ String.join (s.data.map jsonEscapeChar) ++ "\""

/-- Two-space indentation at nesting level `lvl`. -/
def indentOf (lvl : Nat) : String :=
  String.mk (List.replicate (2 * lvl) ' ')

mutual

/-- `json.dumps(j, indent=2)` at nesting level `lvl`. -/
def dumpsAux : Json → Nat → String
  | .null, _ => "null"
  | .bool b, _ => if b then "true" else "false"
  | .num q, _ => ratRender q
  | .str s, _ => jsonQuote s
  | .arr [], _ => "[]"
  | .arr (x :: xs), lvl =>
    "[\n" ++ dumpsList (x :: xs) (lvl + 1) ++ "\n" ++ indentOf lvl ++ "]"
  | .obj [], _ => "\x7b\x7d"
  | .obj (f :: fs), lvl =>
    "\x7b\n" ++ dumpsFields (f :: fs) (lvl + 1) ++ "\n" ++ indentOf lvl ++ "\x7d"

def dumpsList : List Json → Nat → String
  | [], _ => ""
  | [x], lvl => indentOf lvl ++ dumpsAux x lvl
  | x :: rest, lvl => indentOf lvl ++ dumpsAux x lvl ++ ",\n" ++ dumpsList rest lvl

def dumpsFields : List (String × Json) → Nat → String
  | [], _ => ""
  | [(k, v)], lvl => indentOf lvl ++ jsonQuote k ++ ": " ++ dumpsAux v lvl
  | (k, v) :: rest, lvl =>
    indentOf lvl ++ jsonQuote k ++ ": " ++ dumpsAux v lvl ++ ",\n" ++
      dumpsFields rest lvl

end

/-- `json.dumps(j, indent=2)`. -/
def dumps (j : Json) : String := dumpsAux j 0

/-! ### A2A protocol client (`orchestration/a2a_client.py`) -/

/-- The fixed provider roster: name → endpoint identity. -/
def AGENT_IDS : List (String × String) :=
  [("watcher", "supportiq_watcher"),
   ("judge", "supportiq_judge"),
   ("solver", "supportiq_solver"),
   ("critic", "supportiq_critic"),
   ("analyst", "supportiq_analyst")]

/-- Outcome of a completed HTTP exchange: transport status, raw text,
and the result of `resp.json()` (which raises on a non-JSON body). -/
structure HttpResp where
  status_code : Nat
  text : String
  body : Except PyErr Json

/-- External inputs of one `send_message` call: the HTTP layer
(`requests.post`, possibly raising), the `uuid4` draws, and the measured
wall-clock duration. -/
structure ClientEnv where
  post : Json → Except PyErr HttpResp
  request_id : String
  message_id : String
  session_id : String
  elapsed_ms : Nat

/-- The dictionary `send_message` returns. -/
structure SendResult where
  agent : String
  session_id : String
  request_id : String
  response_text : String
  parsed : Json
  duration_ms : Nat
  success : Bool

/-- `[p.get("text","") for p in parts if p.get("kind") == "text"]` over a
list of parts; each element access can raise `AttributeError`. -/
def partTexts : List Json → Except PyErr (List Json)
  | [] => .ok []
  | p :: rest => do
    let kind ← p.pyGet "kind"
    if kind.eqStr "text" then
      let t ← p.pyGetD "text" (.str "")
      let tail ← partTexts rest
      .ok (t :: tail)
    else
      partTexts rest

/-- Iterate `parts` as Python would: lists elementwise, strings by
character, dicts by key (each yielding a non-dict element whose `.get`
raises), `TypeError` for non-iterables. -/
def iterParts : Json → Except PyErr (List Json)
  | .arr xs => partTexts xs
  | .str s =>
    if s = "" then .ok []
    else .error (.attributeError "str object has no attribute get")
  | .obj fs =>
    if fs.isEmpty then .ok []
    else .error (.attributeError "str object has no attribute get")
  | _ => .error (.typeError "object is not iterable")

/-- `" ".join(texts)`: `TypeError` unless every element is a string. -/
def joinStrs (xs : List Json) : Except PyErr String := do
  let ss ← xs.mapM (fun j =>
    match j with
    | .str s => Except.ok s
    | _ => Except.error (.typeError "sequence item expected str instance"))
  .ok (String.intercalate " " ss)

/-- The guarded body of `_extract_text`: `result.status.message.parts[].text`,
returning `none` when the `isinstance(result, dict)` test fails. -/
def extractTextCore (resp : Json) : Except PyErr (Option String) := do
  let result ← resp.pyGetD "result" (.obj [])
  match result with
  | .obj rs => do
    let status ← Json.pyGetD (.obj rs) "status" (.obj [])
    let message ← status.pyGetD "message" (.obj [])
    let parts ← message.pyGetD "parts" (.arr [])
    let texts ← iterParts parts
    let joined ← joinStrs texts
    .ok (some joined.trim)
  | _ => .ok none

/-- `_extract_text`: the guarded extraction, falling back to the
stringified raw response on any caught error or a non-dict `result`. -/
def extractText (resp : Json) : String :=
  match extractTextCore resp with
  | .ok (some s) => s
  | _ => pyToStr resp

/-- The message parts of the outgoing A2A envelope (the optional context
is serialized into an extra text part). -/
def a2aParts (message : String) (context : Option Json) : List Json :=
  Json.obj [("kind", .str "text"), ("text", .str message)] ::
    (match context with
     | some ctx =>
       [Json.obj [("kind", .str "text"),
                  ("text", .str ("\n\nContext:\n" ++ dumps ctx))]]
     | none => [])

/-- The JSON-RPC envelope `send_message` posts. -/
def a2aPayload (message : String) (context : Option Json)
    (request_id message_id session : String) : Json :=
  .obj [("jsonrpc", .str "2.0"),
        ("method", .str "message/send"),
        ("id", .str request_id),
        ("params", .obj
          [("message", .obj
             [("role", .str "user"),
              ("parts", .arr (a2aParts message context)),
              ("messageId", .str message_id)]),
           ("sessionId", .str session)])]

/-- Strip one fenced code block and a leading `json` tag, then hand the
cleaned text to `json.loads` (supplied as `loads`; `none` models a
`JSONDecodeError`, and a missing fence segment the caught `IndexError`). -/
def cleanAndParse (loads : String → Option Json) (agent_response : String) :
    Option Json :=
  let clean := agent_response.trim
  if "```".isPrefixOf clean then
    match (clean.splitOn "```").get? 1 with
    | none => none
    | some c1 =>
      let c2 := if "json".isPrefixOf c1 then c1.drop 4 else c1
      loads c2.trim
  else loads clean.trim

/-- `A2AClient.send_message`: resolve the provider, post the envelope,
fail on a non-success status, unwrap and best-effort-parse the reply. -/
def send_message (env : ClientEnv) (loads : String → Option Json)
    (agent_name : String) (message : String) (context : Option Json)
    (session_id : Option String) : Except PyErr SendResult := do
  match AGENT_IDS.lookup agent_name with
  | none => .error (.valueError ("Unknown agent: " ++ agent_name))
  | some _agent_id => do
    let session := session_id.getD env.session_id
    let payload := a2aPayload message context env.request_id env.message_id session
    let resp ← env.post payload
    if resp.status_code ≠ 200 then
      .error (.runtimeError ("A2A call to " ++ sq ++ agent_name ++ sq ++
        " failed: " ++ toString resp.status_code ++ " — " ++ resp.text))
    else do
      let result ← resp.body
      let agent_response := extractText result
      let parsed :=
        (cleanAndParse loads agent_response).getD
          (.obj [("raw_response", .str agent_response)])
      let success ←
        match parsed with
        | .null => pure false
        | p => do
          let m ← Json.pyInStr "raw_response" p
          pure (!m)
      .ok { agent := agent_name,
            session_id := session,
            request_id := env.request_id,
            response_text := agent_response,
            parsed := parsed,
            duration_ms := env.elapsed_ms,
            success := success }

/-! ### Configuration loading (`a2a_pipeline.py`, module top level) -/

/-- Value of a run of decimal digits. -/
def digitsVal (cs : List Char) : Nat :=
  cs.foldl (fun a c => 10 * a + (c.toNat - 48)) 0

/-- The numeric forms accepted by Python's `float()` (sign, integer and
fractional digit runs, optional exponent), on an already-stripped string. -/
def pyFloatCore (t : String) : Option ℚ :=
  let (sign, cs) :=
    match t.data with
    | '+' :: rest => ((1 : ℚ), rest)
    | '-' :: rest => ((-1 : ℚ), rest)
    | cs => ((1 : ℚ), cs)
  let (ip, cs1) := cs.span Char.isDigit
  let (fp, cs2) :=
    match cs1 with
    | '.' :: rest => (rest.takeWhile Char.isDigit, rest.dropWhile Char.isDigit)
    | _ => ([], cs1)
  if ip.isEmpty ∧ fp.isEmpty then none
  else
    let mantissa : ℚ := (digitsVal ip : ℚ) + (digitsVal fp : ℚ) / (10 ^ fp.length : ℕ)
    match cs2 with
    | [] => some (sign * mantissa)
    | e :: rest =>
      if e = 'e' ∨ e = 'E' then
        let (esign, rest1) :=
          match rest with
          | '+' :: r => ((1 : ℤ), r)
          | '-' :: r => ((-1 : ℤ), r)
          | r => ((1 : ℤ), r)
        let (ed, rest2) := rest1.span Char.isDigit
        if ed.isEmpty ∨ ¬rest2.isEmpty then none
        else some (sign * mantissa * (10 : ℚ) ^ (esign * digitsVal ed))
      else none

/-- Python `float(s)`: strips whitespace, parses, raises `ValueError`
otherwise. -/
def pyFloat (s : String) : Except PyErr ℚ :=
  match pyFloatCore s.trim with
  | some q => .ok q
  | none =>
    .error (.valueError ("could not convert string to float: " ++ sq ++ s ++ sq))

/-- The three threshold environment variables as `os.getenv` sees them
(`none` = unset). -/
structure ConfigEnv where
  auto_resolve_env : Option String
  escalate_env : Option String
  critic_env : Option String

/-- Module-level configuration load:
`float(os.getenv(name, default))` for the three thresholds, in source
order.  Returns `(AUTO_RESOLVE_THRESHOLD, ESCALATE_THRESHOLD,
CRITIC_QUALITY_THRESHOLD)`. -/
def loadThresholds (e : ConfigEnv) : Except PyErr (ℚ × ℚ × ℚ) := do
  let a ← pyFloat (e.auto_resolve_env.getD "0.90")
  let esc ← pyFloat (e.escalate_env.getD "0.65")
  let c ← pyFloat (e.critic_env.getD "0.75")
  .ok (a, esc, c)

/-- Default `AUTO_RESOLVE_CONFIDENCE_THRESHOLD`. -/
def AUTO_RESOLVE_THRESHOLD : ℚ := 0.90

/-- Default `ESCALATE_CONFIDENCE_THRESHOLD`. -/
def ESCALATE_THRESHOLD : ℚ := 0.65

/-- Default `CRITIC_QUALITY_THRESHOLD`. -/
def CRITIC_QUALITY_THRESHOLD : ℚ := 0.75

/-- `MAX_SOLVER_ATTEMPTS` (fixed, not configurable). -/
def MAX_SOLVER_ATTEMPTS : Nat := 3

/-! ### The orchestration pipeline (`SupportIQPipeline`) -/

/-- One observable side effect of a run, in execution order.  Provider
calls are logged with the exact outgoing message; the best-effort
write/notify calls with what they post. -/
inductive SideEffect where
  | agentCall (agent : String) (message : String)
  | esUpdate (ticket_id : Json) (updates : List (String × Json))
  | workflow (workflow_id : String) (payload : List (String × Json))
  | workflowUnknown (workflow_id : String)
  | slack (emoji : String) (text : String)
  | traceWrite (doc : List (String × Json))

/-- What the pipeline reads out of a `send_message` result dictionary. -/
structure CallOk where
  parsed : Json
  duration_ms : Nat

/-- External inputs of one run: each provider call's outcome (an
exception propagating out of the client, or its parsed response),
clock readings, and whether each category of best-effort side call
fails at the HTTP layer.  `solver`/`critic` are indexed by the attempt
number of the retry loop. -/
structure PipeEnv where
  watcher : Except PyErr CallOk
  judge : Except PyErr CallOk
  solver : Nat → Except PyErr CallOk
  critic : Nat → Except PyErr CallOk
  now : Nat
  writeTime : Nat
  nowIso : String
  elapsed_ms : Nat
  esFails : Bool
  workflowFails : Bool
  slackFails : Bool
  traceFails : Bool
  slackConfigured : Bool

/-- Result and logs of a pipeline fragment: the trace steps it appended
and the side effects it performed survive even when it raises, because
the source mutates the trace in place. -/
structure StageOut (α : Type) where
  res : Except PyErr α
  steps : List Json
  effects : List SideEffect

/-- Computation monad for pipeline stages: `Except` with step/effect
logs accumulated in order. -/
@[reducible] def StageM (α : Type) : Type := StageOut α

instance : Monad StageM where
  pure a := ⟨.ok a, [], []⟩
  bind x f :=
    match x.res with
    | .error e => ⟨.error e, x.steps, x.effects⟩
    | .ok a =>
      let y := f a
      ⟨y.res, x.steps ++ y.steps, x.effects ++ y.effects⟩

/-- Run a raising Python expression inside a stage. -/
def liftE {α : Type} (x : Except PyErr α) : StageM α := ⟨x, [], []⟩

/-- `trace["steps"].append(step)`. -/
def emitStep (j : Json) : StageM Unit := ⟨.ok (), [j], []⟩

/-- Record performed side effects. -/
def emitEffects (es : List SideEffect) : StageM Unit := ⟨.ok (), [], es⟩

/-- The HTTP layer of a best-effort side call: raises when the
environment says so. -/
def httpAttempt (fails : Bool) : Except PyErr Unit :=
  if fails then .error (.requestError "requests exception") else .ok ()

/-- `_update_ticket_es`: posts an update-by-query; the `try/except`
swallows any request failure, so the attempt is logged either way. -/
def updateTicketEs (fails : Bool) (ticket_id : Json)
    (updates : List (String × Json)) : List SideEffect :=
  match httpAttempt fails with
  | .ok _ => [.esUpdate ticket_id updates]
  | .error _ => [.esUpdate ticket_id updates]

/-- The workflow webhook routing table of `_trigger_workflow`. -/
def workflow_map : List (String × String) :=
  [("crm_update", "/supportiq/resolve"),
   ("ghost_alert", "/supportiq/ghost-alert"),
   ("kb_draft", "/supportiq/kb-draft"),
   ("feedback", "/supportiq/feedback")]

/-- `_trigger_workflow`: unknown ids are a warned no-op; the POST is
wrapped in `try/except`, so a transport failure changes nothing. -/
def triggerWorkflow (fails : Bool) (workflow_id : String)
    (payload : List (String × Json)) : List SideEffect :=
  match workflow_map.lookup workflow_id with
  | none => [.workflowUnknown workflow_id]
  | some _path =>
    match httpAttempt fails with
    | .ok _ => [.workflow workflow_id payload]
    | .error _ => [.workflow workflow_id payload]

/-- `_notify_slack`: silently skipped without a webhook URL; the POST
failure is swallowed by a bare `except`. -/
def notifySlack (configured fails : Bool) (text : String) (emoji : String) :
    List SideEffect :=
  if !configured then []
  else
    match httpAttempt fails with
    | .ok _ => [.slack emoji (":" ++ emoji ++ ": " ++ text)]
    | .error _ => [.slack emoji (":" ++ emoji ++ ": " ++ text)]

/-- Message sent to the watcher provider. -/
def watcherMessage (ticket : Json) : String :=
  "New support ticket received. Please enrich it:\n\n" ++ dumps ticket

/-- Message sent to the judge provider. -/
def judgeMessage (ticket enrichment : Json) : String :=
  "Triage this enriched support ticket:\n\nTicket:\n" ++ dumps ticket ++
    "\n\nEnrichment data:\n" ++ dumps enrichment

/-- The solver message before any rejection feedback. -/
def solverBaseMessage (ticket enrichment triage : Json) : String :=
  "Resolve this support ticket.\n\nTicket:\n" ++ dumps ticket ++
    "\n\nEnrichment:\n" ++ dumps enrichment ++
    "\n\nTriage:\n" ++ dumps triage

/-- The feedback section appended to the solver message from attempt 2
onward. -/
def rejectionFeedback (previous_attempt : Json) : String :=
  "\n\n⚠️ PREVIOUS ATTEMPT WAS REJECTED by the Critic Agent.\nprevious_attempt: " ++
    dumps previous_attempt ++
    "\n\nDO NOT repeat the same mistakes. Address every point in critic_feedback."

/-- The full solver message: base plus, when a (truthy) previous attempt
exists, the rejection feedback. -/
def solverMessage (ticket enrichment triage : Json)
    (previous_attempt : Option Json) : String :=
  match previous_attempt with
  | some p =>
    if p.truthy then solverBaseMessage ticket enrichment triage ++ rejectionFeedback p
    else solverBaseMessage ticket enrichment triage
  | none => solverBaseMessage ticket enrichment triage

/-- Message sent to the critic provider (its construction reads ticket
fields and can raise on a malformed ticket). -/
def criticMessage (ticket resolution : Json) : Except PyErr String := do
  let title ← ticket.pyGet "title"
  let descr ← ticket.pyGet "description"
  let cat ← ticket.pyGetD "category" (.str "unknown")
  .ok ("Evaluate this resolution draft:\n\nTicket:\ntitle: " ++ pyToStr title ++
    "\ndescription: " ++ pyToStr descr ++
    "\ncategory: " ++ pyToStr cat ++
    "\n\nResolution draft:\n" ++ dumps resolution)

/-- `x is None` test used for the `deployment_correlated` trace field. -/
def Json.isNull : Json → Bool
  | .null => true
  | _ => false

/-- Step 1, `_run_watcher`: call the watcher, record the enrichment step,
update the ticket document (indexing `ticket["ticket_id"]` directly). -/
def runWatcher (env : PipeEnv) (ticket : Json) : StageM Json := do
  emitEffects [.agentCall "watcher" (watcherMessage ticket)]
  let result ← liftE env.watcher
  let enrichment := result.parsed
  let e1 ← liftE (enrichment.pyGetD "enrichment" (.obj []))
  let similar ← liftE (e1.pyGetD "similar_count" (.num 0))
  let known ← liftE (e1.pyGetD "has_known_solution" (.bool false))
  let tier ← liftE (e1.pyGetD "customer_tier" (.str "unknown"))
  emitStep (.obj [("step", .num 1), ("agent", .str "watcher"),
    ("duration_ms", .num result.duration_ms), ("similar_count", similar),
    ("has_known_solution", known), ("customer_tier", tier)])
  let tid ← liftE (ticket.pySubscript "ticket_id")
  let simTickets ← liftE (e1.pyGetD "similar_tickets" (.arr []))
  let tierU ← liftE (e1.pyGet "customer_tier")
  let sla ← liftE (e1.pyGet "sla_hours")
  emitEffects (updateTicketEs env.esFails tid
    [("similar_tickets", simTickets), ("customer_tier", tierU),
     ("sla_hours", sla), ("status", .str "enriched")])
  pure enrichment

/-- `_fire_ghost_ticket_alert`: build the surge payload from the triage's
correlation data and trigger the `ghost_alert` workflow. -/
def fireGhostTicketAlert (env : PipeEnv) (ticket triage : Json) :
    StageM Unit := do
  let correlation ← liftE (triage.pyGetD "deployment_correlation" (.obj []))
  let related0 ← liftE (correlation.pyGet "related_deployments")
  let related := if related0.truthy then related0 else Json.arr [.obj []]
  let top_deploy ←
    if related.truthy then liftE related.pyIndex0 else pure (Json.obj [])
  let category ← liftE (ticket.pyGet "category")
  let sd1 ← liftE (triage.pyGetD "surge_data" (.obj []))
  let rate ← liftE (sd1.pyGetD "current_hourly_rate" (.str "?"))
  let sd2 ← liftE (triage.pyGetD "surge_data" (.obj []))
  let sigma ← liftE (sd2.pyGetD "sigma_level" (.str "?"))
  let sd3 ← liftE (triage.pyGetD "surge_data" (.obj []))
  let cnt ← liftE (sd3.pyGetD "current_count_in_window" (.str "?"))
  let depId ← liftE (top_deploy.pyGetD "deployment_id" (.str "unknown"))
  let service ← liftE (top_deploy.pyGetD "service" (.str "unknown"))
  let depAt ← liftE (top_deploy.pyGetD "deployed_at" (.str "unknown"))
  let rollback ← liftE (top_deploy.pyGetD "rollback_available" (.bool false))
  let catDraft ← liftE (ticket.pyGetD "category" (.str "this feature"))
  emitEffects (triggerWorkflow env.workflowFails "ghost_alert"
    [("category", category),
     ("current_hourly_rate", rate),
     ("sigma_level", sigma),
     ("current_count", cnt),
     ("window_minutes", .num 60),
     ("deployment_id", depId),
     ("service", service),
     ("deployed_at", depAt),
     ("rollback_available", rollback),
     ("draft_template", .str ("Hi, we" ++ sq ++ "re aware of an issue with " ++
        pyToStr catDraft ++ " and our team is actively working on a fix. We" ++
        sq ++ "ll update you within the hour."))])

/-- The guard in `_run_judge`:
`if surge and triage.get("deployment_correlation"):` — Python truthiness
on both operands decides whether the ghost alert fires. -/
def judgeGhostStep (env : PipeEnv) (ticket triage surge corr : Json) :
    StageM Unit :=
  if surge.truthy && corr.truthy then
    fireGhostTicketAlert env ticket triage
  else pure ()

/-- Step 2, `_run_judge`: call the judge, record the triage step, fire
the ghost alert when both surge flag and correlation are truthy, update
the ticket document. -/
def runJudge (env : PipeEnv) (ticket enrichment : Json) : StageM Json := do
  emitEffects [.agentCall "judge" (judgeMessage ticket enrichment)]
  let result ← liftE env.judge
  let triage := result.parsed
  let priority ← liftE (triage.pyGetD "priority_label" (.str "UNKNOWN"))
  let surge ← liftE (triage.pyGetD "surge_detected" (.bool false))
  let score ← liftE (triage.pyGetD "priority_score" (.num 0))
  let corr0 ← liftE (triage.pyGet "deployment_correlation")
  emitStep (.obj [("step", .num 2), ("agent", .str "judge"),
    ("duration_ms", .num result.duration_ms), ("priority_score", score),
    ("priority_label", priority), ("surge_detected", surge),
    ("deployment_correlated", .bool (!corr0.isNull))])
  let _ ← liftE (fmtFixed 1 score)
  let corr1 ← liftE (triage.pyGet "deployment_correlation")
  judgeGhostStep env ticket triage surge corr1
  let tid ← liftE (ticket.pySubscript "ticket_id")
  let reasoning ← liftE (triage.pyGet "triage_reasoning")
  let slaRisk ← liftE (triage.pyGet "sla_breach_risk")
  let corr2 ← liftE (triage.pyGet "deployment_correlation")
  emitEffects (updateTicketEs env.esFails tid
    [("priority_score", score), ("priority_label", priority),
     ("triage_reasoning", reasoning), ("sla_breach_risk", slaRisk),
     ("deployment_correlation", corr2), ("status", .str "triaged")])
  pure triage

/-- The body of `_run_solver_critic_loop`'s `for` loop, with the loop's
leaked end-of-iteration variables (`resolution`, `quality_score`)
threaded explicitly as `last`.  `fuel` counts the remaining iterations;
at `fuel = 0` the post-loop forced-exit branch runs. -/
def solverCriticGo (env : PipeEnv) (ticket enrichment triage : Json) :
    Nat → Nat → Option Json → Option (Json × Json) → StageM Json
  | _attempt, 0, _prev, last =>
    match last with
    | none => liftE (.error (.nameError "name resolution is not defined"))
    | some (resolution, quality_score) =>
      liftE (resolution.pyMerge
        [("critic_quality_score", quality_score),
         ("attempts", .num MAX_SOLVER_ATTEMPTS),
         ("quality_warning", .bool true),
         ("final", .bool true)])
  | attempt, fuel + 1, prev, _last => do
    emitEffects [.agentCall "solver" (solverMessage ticket enrichment triage prev)]
    let sres ← liftE (env.solver attempt)
    let resolution := sres.parsed
    let confidence ← liftE (resolution.pyGetD "confidence" (.num 0))
    let _ ← liftE (fmtFixed 2 confidence)
    let _ ← liftE (resolution.pyGet "decision")
    let cmsg ← liftE (criticMessage ticket resolution)
    emitEffects [.agentCall "critic" cmsg]
    let cres ← liftE (env.critic attempt)
    let quality := cres.parsed
    let quality_score ← liftE (quality.pyGetD "quality_score" (.num 0))
    let critic_decision ← liftE (quality.pyGetD "decision" (.str "REJECTED"))
    let _ ← liftE (fmtFixed 2 quality_score)
    emitStep (.obj [("step", .str ("3." ++ toString attempt)),
      ("agent", .str "solver+critic"), ("attempt", .num attempt),
      ("solver_confidence", confidence), ("critic_quality", quality_score),
      ("critic_decision", critic_decision),
      ("solver_duration_ms", .num sres.duration_ms),
      ("critic_duration_ms", .num cres.duration_ms)])
    if critic_decision.eqStr "APPROVED" then
      liftE (resolution.pyMerge
        [("critic_quality_score", quality_score),
         ("attempts", .num attempt),
         ("final", .bool true)])
    else do
      let critique0 ← liftE (quality.pyGetD "critique" (.str ""))
      let _ ← liftE (critique0.pySlice 100)
      let draft ← liftE (resolution.pyGet "resolution_draft")
      let fb ← liftE (quality.pyGet "critique")
      let imp ← liftE (quality.pyGet "improvement_required")
      solverCriticGo env ticket enrichment triage (attempt + 1) fuel
        (some (.obj [("resolution_draft", draft), ("confidence", confidence),
          ("critic_feedback", fb), ("improvement_required", imp)]))
        (some (resolution, quality_score))

/-- Steps 3+4, `_run_solver_critic_loop`: run the bounded loop and update
the ticket document with the final resolution. -/
def runSolverCriticLoop (env : PipeEnv) (ticket enrichment triage : Json) :
    StageM Json := do
  let fr ← solverCriticGo env ticket enrichment triage 1 MAX_SOLVER_ATTEMPTS none none
  let tid ← liftE (ticket.pySubscript "ticket_id")
  let draft ← liftE (fr.pyGet "resolution_draft")
  let conf ← liftE (fr.pyGet "confidence")
  let cscore ← liftE (fr.pyGet "critic_quality_score")
  let att ← liftE (fr.pyGet "attempts")
  emitEffects (updateTicketEs env.esFails tid
    [("resolution_draft", draft), ("resolution_confidence", conf),
     ("critic_score", cscore), ("resolution_attempts", att),
     ("status", .str "resolved_draft")])
  pure fr

/-- Step 5, `_execute_decision`: read the resolution's `decision` field
(defaulting to `escalate`), perform the branch's side effects, append the
decision record, and return `{decision, resolution_text}`. -/
def executeDecision (env : PipeEnv) (ticket resolution triage : Json) :
    StageM Json := do
  let confidence ← liftE (resolution.pyGetD "confidence" (.num 0))
  let decision ← liftE (resolution.pyGetD "decision" (.str "escalate"))
  let resolution_text ← liftE (resolution.pyGetD "resolution_draft" (.str ""))
  let tid ← liftE (ticket.pySubscript "ticket_id")
  let _ ← liftE (fmtFixed 2 confidence)
  if decision.eqStr "auto_resolve" then do
    emitEffects (triggerWorkflow env.workflowFails "crm_update"
      [("ticket_id", tid), ("resolution_text", resolution_text),
       ("resolved_by", .str "agent"), ("is_auto_resolved", .bool true),
       ("confidence", confidence)])
    let confPct ← liftE (fmtPct confidence)
    let qv ← liftE (resolution.pyGetD "critic_quality_score" (.num 0))
    let qPct ← liftE (fmtPct qv)
    let att ← liftE (resolution.pyGetD "attempts" (.num 1))
    emitEffects (notifySlack env.slackConfigured env.slackFails
      ("✅ *Auto-resolved:* `" ++ pyToStr tid ++ "`\n*Confidence:* " ++ confPct ++
       " | *Quality:* " ++ qPct ++ "\n*Attempts:* " ++ pyToStr att ++
       "\n*Response sent to customer.*") "robot_face")
    emitEffects (updateTicketEs env.esFails tid
      [("status", .str "resolved"), ("resolution_final", resolution_text),
       ("resolved_by", .str "agent")])
  else if decision.eqStr "draft_for_approval" then do
    let confPct ← liftE (fmtPct confidence)
    let qv ← liftE (resolution.pyGetD "critic_quality_score" (.num 0))
    let qPct ← liftE (fmtPct qv)
    let snippet ← liftE (resolution_text.pySlice 500)
    emitEffects (notifySlack env.slackConfigured env.slackFails
      ("📋 *Needs approval:* `" ++ pyToStr tid ++ "`\n*Confidence:* " ++ confPct ++
       " | *Quality:* " ++ qPct ++ "\n*Draft response:*\n```" ++ pyToStr snippet ++
       "```\nReact with 👍 to send, 👎 to reject and escalate.") "pencil")
    emitEffects (updateTicketEs env.esFails tid
      [("status", .str "pending_approval")])
  else do
    let prio ← liftE (triage.pyGetD "priority_label" (.str "UNKNOWN"))
    let confPct ← liftE (fmtPct confidence)
    emitEffects (notifySlack env.slackConfigured env.slackFails
      ("🆘 *Escalation required:* `" ++ pyToStr tid ++ "`\n*Priority:* " ++
       pyToStr prio ++ "\n*Reason:* Low confidence (" ++ confPct ++
       "). Human expertise needed.\n*Draft available:* SupportIQ prepared a starting point — check Kibana.")
      "sos")
    emitEffects (updateTicketEs env.esFails tid
      [("status", .str "escalated"), ("resolution_draft", resolution_text)])
  let q ← liftE (resolution.pyGet "critic_quality_score")
  emitStep (.obj [("step", .num 5), ("agent", .str "pipeline"),
    ("decision", decision), ("confidence", confidence), ("quality_score", q)])
  pure (.obj [("decision", decision), ("resolution_text", resolution_text)])

mutual

/-- `json.dumps(j)` without indentation (used for the trace's `steps`
field). -/
def dumpsC : Json → String
  | .null => "null"
  | .bool b => if b then "true" else "false"
  | .num q => ratRender q
  | .str s => jsonQuote s
  | .arr xs => "[" ++ dumpsCList xs ++ "]"
  | .obj fs => "\x7b" ++ dumpsCFields fs ++ "\x7d"

def dumpsCList : List Json → String
  | [] => ""
  | [x] => dumpsC x
  | x :: rest => dumpsC x ++ ", " ++ dumpsCList rest

def dumpsCFields : List (String × Json) → String
  | [] => ""
  | [(k, v)] => jsonQuote k ++ ": " ++ dumpsC v
  | (k, v) :: rest => jsonQuote k ++ ": " ++ dumpsC v ++ ", " ++ dumpsCFields rest

end

/-- The completed run trace (the dictionary `process_ticket` returns).
`final_decision`/`final_resolution` start as `None` (`none`) and `error`
is only present after the failure boundary fired. -/
structure Trace where
  ticket_id : Json
  pipeline_start : String
  steps : List Json
  final_decision : Option Json
  final_resolution : Option Json
  total_duration_ms : Nat
  error : Option String

/-- A finished run: its trace and everything it did to the outside world. -/
structure RunOut where
  trace : Trace
  effects : List SideEffect

/-- `_write_pipeline_trace`: best-effort write of the trace document
(request failures are swallowed, so the attempt is logged either way). -/
def writePipelineTrace (env : PipeEnv) (trace : Trace) : List SideEffect :=
  let doc : List (String × Json) :=
    [("trace_id", .str ("pipeline-" ++ pyToStr trace.ticket_id ++ "-" ++
        toString env.writeTime)),
     ("ticket_id", trace.ticket_id),
     ("timestamp", .str env.nowIso),
     ("agent_name", .str "pipeline"),
     ("action", .str "full_pipeline"),
     ("decision", trace.final_decision.getD .null),
     ("duration_ms", .num trace.total_duration_ms),
     ("steps", .str (dumpsC (.arr trace.steps)))]
  match httpAttempt env.traceFails with
  | .ok _ => [.traceWrite doc]
  | .error _ => [.traceWrite doc]

/-- The sequence of stages inside `process_ticket`'s `try` block, ending
with the reads of the decision dictionary that fill the trace. -/
def pipelineBody (env : PipeEnv) (ticket : Json) : StageM (Json × Json) := do
  let enrichment ← runWatcher env ticket
  let triage ← runJudge env ticket enrichment
  let resolution ← runSolverCriticLoop env ticket enrichment triage
  let final ← executeDecision env ticket resolution triage
  let dec ← liftE (final.pySubscript "decision")
  let rtext ← liftE (final.pyGet "resolution_text")
  pure (dec, rtext)

/-- The trace `process_ticket` builds, as a function of the `try`-block
outcome (named here so that the claims can speak about its fields). -/
def pipelineTrace (env : PipeEnv) (ts : List (String × Json)) : Trace :=
  { ticket_id :=
      (Json.lookup ts "ticket_id").getD (.str ("TKT-" ++ toString env.now)),
    pipeline_start := env.nowIso,
    steps := (pipelineBody env (.obj ts)).steps,
    final_decision :=
      match (pipelineBody env (.obj ts)).res with
      | .ok p => some p.1
      | .error _ => some (.str "error"),
    final_resolution :=
      match (pipelineBody env (.obj ts)).res with
      | .ok p => some p.2
      | .error _ => none,
    total_duration_ms := env.elapsed_ms,
    error :=
      match (pipelineBody env (.obj ts)).res with
      | .ok _ => none
      | .error e => some e.toStr }

/-- `process_ticket`: the public entry point.  The intake logging and the
fallback ticket id run before the failure boundary (so they can raise out
of the function); the four stages run inside it; the trace is persisted
in every case that reaches the boundary. -/
def process_ticket (env : PipeEnv) (ticket : Json) : Except PyErr RunOut := do
  let tidJ ← ticket.pyGetD "ticket_id" (.str ("TKT-" ++ toString env.now))
  let titleJ ← ticket.pyGetD "title" (.str "N/A")
  let _ ← titleJ.pySlice 60
  let body := pipelineBody env ticket
  let outcome :=
    match body.res with
    | .ok (d, r) => (some d, some r, (none : Option String))
    | .error e => (some (.str "error"), none, some e.toStr)
  let trace : Trace :=
    { ticket_id := tidJ,
      pipeline_start := env.nowIso,
      steps := body.steps,
      final_decision := outcome.1,
      final_resolution := outcome.2.1,
      total_duration_ms := env.elapsed_ms,
      error := outcome.2.2 }
  .ok { trace := trace,
        effects := body.effects ++ writePipelineTrace env trace }

/-! ### Observables and well-formedness predicates used by the claims -/

/-- Is this effect a provider call to `agent`? -/
def isCallTo (agent : String) : SideEffect → Bool
  | .agentCall a _ => a = agent
  | _ => false

/-- How many provider calls to `agent` an effect log contains. -/
def countCalls (agent : String) (es : List SideEffect) : Nat :=
  (es.filter (isCallTo agent)).length

/-- The messages of the provider calls to `agent`, in order. -/
def callMessages (agent : String) (es : List SideEffect) : List String :=
  es.filterMap (fun e =>
    match e with
    | .agentCall a m => if a = agent then some m else none
    | _ => none)

/-- Is this effect the pre-emptive surge (`ghost_alert`) workflow trigger? -/
def isGhostAlert : SideEffect → Bool
  | .workflow wid _ => wid = "ghost_alert"
  | _ => false

/-- Is this effect the trace persistence write? -/
def isTraceWrite : SideEffect → Bool
  | .traceWrite _ => true
  | _ => false

/-- A ticket field list whose `title` survives the intake logging's
`[:60]` slice (absent, a string, or a list). -/
def titleOk (ts : List (String × Json)) : Bool :=
  match Json.lookup ts "title" with
  | none => true
  | some (.str _) => true
  | some (.arr _) => true
  | _ => false

/-- An absent or numeric field value (the shape the `:.1f`-style format
codes are exercised with here). -/
def numFmtOk : Option Json → Bool
  | none => true
  | some (.num _) => true
  | _ => false

/-- `related_deployments` values for which the ghost-alert payload
construction cannot raise: absent, null, or a list headed by a dict. -/
def relatedOk : Option Json → Bool
  | none => true
  | some .null => true
  | some (.arr (Json.obj _ :: _)) => true
  | _ => false

/-- `deployment_correlation` values for which the ghost-alert side-path
is well defined whenever it fires. -/
def ghostCorrOk (corr : Json) : Bool :=
  if corr.truthy then
    match corr with
    | .obj cs => relatedOk (Json.lookup cs "related_deployments")
    | _ => false
  else true

/-- `surge_data` values the alert payload construction accepts. -/
def surgeDataOk (trs : List (String × Json)) : Bool :=
  match Json.lookup trs "surge_data" with
  | none => true
  | some (.obj _) => true
  | _ => false

/-- The canonical well-typed solver reply (a `ResolutionAttempt`). -/
def solverRespObj (draft : String) (conf : ℚ) (dec : String) : Json :=
  .obj [("resolution_draft", .str draft), ("confidence", .num conf),
        ("decision", .str dec)]

/-- The canonical well-typed critic reply (a `ReviewResult`). -/
def criticRespObj (score : ℚ) (verdict critique improvement : String) : Json :=
  .obj [("quality_score", .num score), ("decision", .str verdict),
        ("critique", .str critique), ("improvement_required", .str improvement)]

/-- The previous-attempt feedback dictionary the loop threads into the
next generation attempt. -/
def prevAttemptObj (draft : String) (conf : ℚ) (critique improvement : String) :
    Json :=
  .obj [("resolution_draft", .str draft), ("confidence", .num conf),
        ("critic_feedback", .str critique), ("improvement_required", .str improvement)]

/-! ### Concrete instances for counterexamples and witnesses -/

/-- A provider call that returned the given parsed object. -/
def okCall (fs : List (String × Json)) : Except PyErr CallOk :=
  .ok ⟨.obj fs, 5⟩

/-- A well-formed input ticket. -/
def cTicket : Json := .obj [("ticket_id", .str "T-1"), ("title", .str "help")]

/-- A ticket with no `ticket_id` key. -/
def cNoIdTicket : Json := .obj [("title", .str "printer on fire")]

/-- Happy-path environment: watcher/judge return empty objects, the
solver answers with confidence 0.95 and decision `auto_resolve`, the
critic approves. -/
def envBase : PipeEnv :=
  { watcher := okCall []
    judge := okCall []
    solver := fun _ => .ok ⟨solverRespObj "draft text" 0.95 "auto_resolve", 7⟩
    critic := fun _ => .ok ⟨criticRespObj 0.8 "APPROVED" "" "", 9⟩
    now := 111, writeTime := 222, nowIso := "2026-01-01T00:00:00+00:00"
    elapsed_ms := 10, esFails := false, workflowFails := false
    slackFails := false, traceFails := false, slackConfigured := true }

/-- Environment whose solver reports high confidence 0.95 yet decision
`escalate` (providers are free to do this; nothing in the pipeline
recomputes the decision from confidence). -/
def envEsc95 : PipeEnv :=
  { envBase with solver := fun _ => .ok ⟨solverRespObj "d" 0.95 "escalate", 7⟩ }

/-- Environment whose solver reports the out-of-vocabulary decision
`defer`. -/
def envDefer : PipeEnv :=
  { envBase with solver := fun _ => .ok ⟨solverRespObj "d" 0.2 "defer", 7⟩ }

/-- A critic that approves attempt 1 and would reject any other. -/
def approveFirstCritic (i : Nat) : Except PyErr CallOk :=
  .ok ⟨criticRespObj 0.8 (if i = 1 then "APPROVED" else "REJECTED") "" "", 9⟩

/-- Environment wired to that critic. -/
def envApproveFirst : PipeEnv :=
  { envBase with critic := approveFirstCritic }

/-- Environment whose critic rejects every attempt. -/
def envRejectAll : PipeEnv :=
  { envBase with
    critic := fun _ => .ok ⟨criticRespObj 0.5 "REJECTED" "too vague" "add steps", 9⟩ }

/-- Environment whose judge reports a surge together with a non-null but
empty deployment correlation object. -/
def envEmptyCorr : PipeEnv :=
  { envBase with
    judge := okCall [("surge_detected", .bool true),
                     ("deployment_correlation", .obj [])] }

/-- Environment whose judge reports a surge with a populated deployment
correlation. -/
def envSurge : PipeEnv :=
  { envBase with
    judge := okCall [("surge_detected", .bool true),
                     ("deployment_correlation", .obj
                        [("related_deployments", .arr
                           [.obj [("deployment_id", .str "D-42"),
                                  ("service", .str "api"),
                                  ("rollback_available", .bool true)]])])] }

/-- `json.loads` stand-in that always fails (any non-JSON reply). -/
def loadsNone : String → Option Json := fun _ => none

/-- A 600-character response body. -/
def longBody : String := String.mk (List.replicate 600 'B')

/-- A reply envelope carrying a plain-text (non-JSON) agent answer. -/
def cRespBody : Json :=
  .obj [("result", .obj [("status", .obj [("message", .obj
    [("parts", .arr [.obj [("kind", .str "text"),
                           ("text", .str "not json at all")]])])])])]

/-- A successful HTTP exchange delivering that envelope. -/
def cRespOk : HttpResp := ⟨200, "raw", .ok cRespBody⟩

/-- Client environment: HTTP 200, reply envelope carrying a plain-text
(non-JSON) agent answer. -/
def cEnvOk : ClientEnv :=
  { post := fun _ => .ok cRespOk
    request_id := "req-1", message_id := "msg-1", session_id := "sess-1"
    elapsed_ms := 7 }

/-- Client environment: HTTP 503 with a long response body. -/
def cEnv503 : ClientEnv :=
  { cEnvOk with post := fun _ => .ok ⟨503, longBody, .error (.valueError "not json")⟩ }

/-- The status/body error message `send_message` raises on a non-success
status, for provider `solver` and status 503. -/
def c8msghead : String :=
  "A2A call to " ++ sq ++ "solver" ++ sq ++ " failed: 503 — "

/-- The critic message `criticMessage` produces for a dict-shaped ticket
(it always succeeds there; this names its value). -/
def criticMsgOf (ts : List (String × Json)) (r : Json) : String :=
  "Evaluate this resolution draft:\n\nTicket:\ntitle: " ++
    pyToStr ((Json.lookup ts "title").getD .null) ++
    "\ndescription: " ++ pyToStr ((Json.lookup ts "description").getD .null) ++
    "\ncategory: " ++ pyToStr ((Json.lookup ts "category").getD (.str "unknown")) ++
    "\n\nResolution draft:\n" ++ dumps r

/-! ### Reduction lemmas for the stage monad and the best-effort helpers -/

theorem liftE_ok_bind {α β : Type} (a : α) (f : α → StageM β) :
    (liftE (.ok a) >>= f) = f a := rfl

theorem liftE_err_bind {α β : Type} (e : PyErr) (f : α → StageM β) :
    (liftE (.error e) >>= f) = ⟨.error e, [], []⟩ := rfl

theorem emitStep_bind {β : Type} (j : Json) (f : Unit → StageM β) :
    (emitStep j >>= f) = ⟨(f ()).res, j :: (f ()).steps, (f ()).effects⟩ := rfl

theorem emitEffects_bind {β : Type} (es : List SideEffect) (f : Unit → StageM β) :
    (emitEffects es >>= f) = ⟨(f ()).res, (f ()).steps, es ++ (f ()).effects⟩ := rfl

theorem pure_bind {α β : Type} (a : α) (f : α → StageM β) :
    ((pure a : StageM α) >>= f) = f a := rfl

theorem pure_res {α : Type} (a : α) : (pure a : StageM α).res = .ok a := rfl

theorem err_stage_bind {α β : Type} (e : PyErr) (s : List Json)
    (es : List SideEffect) (f : α → StageM β) :
    ((⟨.error e, s, es⟩ : StageM α) >>= f) = ⟨.error e, s, es⟩ := rfl

/-- The swallowed `try/except` around the Elasticsearch update makes its
observable effect independent of the HTTP outcome. -/
theorem updateTicketEs_eq (fails : Bool) (tid : Json) (ups : List (String × Json)) :
    updateTicketEs fails tid ups = [.esUpdate tid ups] := by
  cases fails <;> rfl

/-- Likewise for workflow triggers: the effect depends only on whether
the workflow id is known, never on the HTTP outcome. -/
theorem triggerWorkflow_eq (fails : Bool) (wid : String)
    (payload : List (String × Json)) :
    triggerWorkflow fails wid payload =
      match workflow_map.lookup wid with
      | none => [.workflowUnknown wid]
      | some _ => [.workflow wid payload] := by
  cases h : workflow_map.lookup wid <;> cases fails <;>
    simp [triggerWorkflow, httpAttempt, h]

/-- Likewise for Slack notifications (modulo the configured webhook). -/
theorem notifySlack_eq (configured fails : Bool) (text emoji : String) :
    notifySlack configured fails text emoji =
      if configured then [.slack emoji (":" ++ emoji ++ ": " ++ text)] else [] := by
  cases configured <;> cases fails <;> simp [notifySlack, httpAttempt]

/-- Likewise for the trace write: it is always attempted and the run
never learns whether it succeeded. -/
theorem writePipelineTrace_eq (env : PipeEnv) (t : Trace) :
    writePipelineTrace env t =
      [.traceWrite
        [("trace_id", .str ("pipeline-" ++ pyToStr t.ticket_id ++ "-" ++
            toString env.writeTime)),
         ("ticket_id", t.ticket_id),
         ("timestamp", .str env.nowIso),
         ("agent_name", .str "pipeline"),
         ("action", .str "full_pipeline"),
         ("decision", t.final_decision.getD .null),
         ("duration_ms", .num t.total_duration_ms),
         ("steps", .str (dumpsC (.arr t.steps)))]] := by
  cases h : env.traceFails <;> simp [writePipelineTrace, httpAttempt, h]

theorem criticMessage_obj (ts : List (String × Json)) (r : Json) :
    criticMessage (.obj ts) r = .ok (criticMsgOf ts r) := rfl

theorem res_liftE {α : Type} (x : Except PyErr α) : (liftE x).res = x := rfl

theorem res_emitStep0 (j : Json) : (emitStep j).res = .ok () := rfl

theorem res_emitEffects0 (es : List SideEffect) : (emitEffects es).res = .ok () := rfl

theorem res_liftE_ok {α β : Type} (a : α) (f : α → StageM β) :
    ((liftE (.ok a) >>= f)).res = (f a).res := rfl

theorem res_liftE_err {α β : Type} (e : PyErr) (f : α → StageM β) :
    ((liftE (.error e) >>= f)).res = .error e := rfl

theorem res_emitStep {β : Type} (j : Json) (f : Unit → StageM β) :
    ((emitStep j >>= f)).res = (f ()).res := rfl

theorem res_emitEffects {β : Type} (es : List SideEffect) (f : Unit → StageM β) :
    ((emitEffects es >>= f)).res = (f ()).res := rfl

theorem effects_liftE {α : Type} (x : Except PyErr α) : (liftE x).effects = [] := rfl

theorem effects_emitStep (j : Json) : (emitStep j).effects = [] := rfl

theorem effects_emitEffects (es : List SideEffect) : (emitEffects es).effects = es := rfl

theorem effects_liftE_ok {α β : Type} (a : α) (f : α → StageM β) :
    ((liftE (.ok a) >>= f)).effects = (f a).effects := rfl

theorem effects_liftE_err {α β : Type} (e : PyErr) (f : α → StageM β) :
    ((liftE (.error e) >>= f)).effects = [] := rfl

theorem effects_emitStep_bind {β : Type} (j : Json) (f : Unit → StageM β) :
    ((emitStep j >>= f)).effects = (f ()).effects := rfl

theorem effects_emitEffects_bind {β : Type} (es : List SideEffect)
    (f : Unit → StageM β) :
    ((emitEffects es >>= f)).effects = es ++ (f ()).effects := rfl

theorem effects_pure {α : Type} (a : α) : (pure a : StageM α).effects = [] := rfl

/-- `res` of a sequenced stage: the first error wins. -/
theorem res_bind {α β : Type} (x : StageM α) (f : α → StageM β) :
    (x >>= f).res = match x.res with
      | .ok a => (f a).res
      | .error e => .error e := by
  rcases x with ⟨xr, xs, xe⟩
  cases xr <;> rfl

/-- `effects` of a sequenced stage: logs survive an error. -/
theorem effects_bind {α β : Type} (x : StageM α) (f : α → StageM β) :
    (x >>= f).effects = x.effects ++ match x.res with
      | .ok a => (f a).effects
      | .error _ => [] := by
  rcases x with ⟨xr, xs, xe⟩
  cases xr <;> simp [Bind.bind, Monad.toBind, instMonadStageM]

/-- `steps` of a sequenced stage: logs survive an error. -/
theorem steps_bind {α β : Type} (x : StageM α) (f : α → StageM β) :
    (x >>= f).steps = x.steps ++ match x.res with
      | .ok a => (f a).steps
      | .error _ => [] := by
  rcases x with ⟨xr, xs, xe⟩
  cases xr <;> simp [Bind.bind, Monad.toBind, instMonadStageM]

theorem countCalls_nil (a : String) : countCalls a [] = 0 := rfl

theorem countCalls_agentCall (a b : String) (m : String) :
    countCalls a [.agentCall b m] = if b = a then 1 else 0 := by
  by_cases h : b = a <;> simp [countCalls, isCallTo, h]

theorem countCalls_append (a : String) (xs ys : List SideEffect) :
    countCalls a (xs ++ ys) = countCalls a xs + countCalls a ys := by
  simp [countCalls, List.filter_append]

theorem countCalls_effects_bind (a : String) {α β : Type} (x : StageM α)
    (f : α → StageM β) :
    countCalls a (x >>= f).effects =
      countCalls a x.effects +
        (match x.res with
         | .ok v => countCalls a (f v).effects
         | .error _ => 0) := by
  rcases x with ⟨xr, xs, xe⟩
  cases xr <;> simp [countCalls_append, Bind.bind, Monad.toBind, instMonadStageM]

/-- One rejected iteration of the retry loop (result level): move to the
next attempt, threading the critic's feedback as the previous attempt
and the leaked loop variables as `last`. -/
theorem go_iter_rejected_res (env : PipeEnv) (ts : List (String × Json))
    (e tr : Json) (attempt fuel : Nat) (prev : Option Json)
    (last : Option (Json × Json)) (dr : String) (cf : ℚ) (dc : String)
    (qs : ℚ) (cd : String) (cr im : String) (sdur cdur2 : Nat)
    (hs : env.solver attempt = .ok ⟨solverRespObj dr cf dc, sdur⟩)
    (hc : env.critic attempt = .ok ⟨criticRespObj qs cd cr im, cdur2⟩)
    (hrej : cd ≠ "APPROVED") :
    (solverCriticGo env (.obj ts) e tr attempt (fuel + 1) prev last).res =
      (solverCriticGo env (.obj ts) e tr (attempt + 1) fuel
        (some (prevAttemptObj dr cf cr im))
        (some (solverRespObj dr cf dc, .num qs))).res := by
  simp [solverCriticGo, hs, hc, solverRespObj, criticRespObj,
    criticMessage_obj, res_liftE_ok, res_emitStep, res_emitEffects,
    Json.pyGetD, Json.pyGet, Json.lookup, Json.eqStr, Json.pySlice,
    fmtFixed, hrej, prevAttemptObj]

/-- An approved iteration of the retry loop (result level): terminate
with the merged final resolution recording this attempt's index. -/
theorem go_iter_approved_res (env : PipeEnv) (ts : List (String × Json))
    (e tr : Json) (attempt fuel : Nat) (prev : Option Json)
    (last : Option (Json × Json)) (dr : String) (cf : ℚ) (dc : String)
    (qs : ℚ) (cr im : String) (sdur cdur2 : Nat)
    (hs : env.solver attempt = .ok ⟨solverRespObj dr cf dc, sdur⟩)
    (hc : env.critic attempt = .ok ⟨criticRespObj qs "APPROVED" cr im, cdur2⟩) :
    (solverCriticGo env (.obj ts) e tr attempt (fuel + 1) prev last).res =
      .ok (.obj [("resolution_draft", .str dr), ("confidence", .num cf),
        ("decision", .str dc), ("critic_quality_score", .num qs),
        ("attempts", .num attempt), ("final", .bool true)]) := by
  simp [solverCriticGo, hs, hc, solverRespObj, criticRespObj,
    criticMessage_obj, res_liftE_ok, res_emitStep, res_emitEffects,
    Json.pyGetD, Json.pyGet, Json.lookup, Json.eqStr, Json.pySlice,
    fmtFixed, Json.pyMerge, Json.mergeFields, Json.setKey, res_liftE]

/-- Ceiling exhaustion (result level): the post-loop branch flags the
leaked last resolution with `quality_warning` and `attempts = 3`. -/
theorem go_base_res (env : PipeEnv) (ts : List (String × Json)) (e tr : Json)
    (attempt : Nat) (prev : Option Json) (dr : String) (cf : ℚ) (dc : String)
    (q : Json) :
    (solverCriticGo env (.obj ts) e tr attempt 0 prev
      (some (solverRespObj dr cf dc, q))).res =
      .ok (.obj [("resolution_draft", .str dr), ("confidence", .num cf),
        ("decision", .str dc), ("critic_quality_score", q),
        ("attempts", .num 3), ("quality_warning", .bool true),
        ("final", .bool true)]) := by
  simp [solverCriticGo, solverRespObj, Json.pyMerge, Json.mergeFields,
    Json.setKey, MAX_SOLVER_ATTEMPTS, liftE]

/-- One rejected iteration (effects level): one solver call with the
message built from the threaded previous attempt, one critic call, then
the recursion's effects. -/
theorem go_iter_rejected_eff (env : PipeEnv) (ts : List (String × Json))
    (e tr : Json) (attempt fuel : Nat) (prev : Option Json)
    (last : Option (Json × Json)) (dr : String) (cf : ℚ) (dc : String)
    (qs : ℚ) (cd : String) (cr im : String) (sdur cdur2 : Nat)
    (hs : env.solver attempt = .ok ⟨solverRespObj dr cf dc, sdur⟩)
    (hc : env.critic attempt = .ok ⟨criticRespObj qs cd cr im, cdur2⟩)
    (hrej : cd ≠ "APPROVED") :
    (solverCriticGo env (.obj ts) e tr attempt (fuel + 1) prev last).effects =
      .agentCall "solver" (solverMessage (.obj ts) e tr prev) ::
      .agentCall "critic" (criticMsgOf ts (solverRespObj dr cf dc)) ::
      (solverCriticGo env (.obj ts) e tr (attempt + 1) fuel
        (some (prevAttemptObj dr cf cr im))
        (some (solverRespObj dr cf dc, .num qs))).effects := by
  simp [solverCriticGo, hs, hc, solverRespObj, criticRespObj,
    criticMessage_obj, effects_liftE_ok, effects_emitStep_bind,
    effects_emitEffects_bind, Json.pyGetD, Json.pyGet, Json.lookup,
    Json.eqStr, Json.pySlice, fmtFixed, hrej, prevAttemptObj]

/-- An approved iteration (effects level): exactly one solver call and
one critic call, and nothing further. -/
theorem go_iter_approved_eff (env : PipeEnv) (ts : List (String × Json))
    (e tr : Json) (attempt fuel : Nat) (prev : Option Json)
    (last : Option (Json × Json)) (dr : String) (cf : ℚ) (dc : String)
    (qs : ℚ) (cr im : String) (sdur cdur2 : Nat)
    (hs : env.solver attempt = .ok ⟨solverRespObj dr cf dc, sdur⟩)
    (hc : env.critic attempt = .ok ⟨criticRespObj qs "APPROVED" cr im, cdur2⟩) :
    (solverCriticGo env (.obj ts) e tr attempt (fuel + 1) prev last).effects =
      [.agentCall "solver" (solverMessage (.obj ts) e tr prev),
       .agentCall "critic" (criticMsgOf ts (solverRespObj dr cf dc))] := by
  simp [solverCriticGo, hs, hc, solverRespObj, criticRespObj,
    criticMessage_obj, effects_liftE_ok, effects_emitStep_bind,
    effects_emitEffects_bind, Json.pyGetD, Json.pyGet, Json.lookup,
    Json.eqStr, Json.pySlice, fmtFixed, effects_liftE]

/-- Ceiling exhaustion performs no further calls. -/
theorem go_base_eff (env : PipeEnv) (t e tr : Json) (attempt : Nat)
    (prev : Option Json) (last : Option (Json × Json)) :
    (solverCriticGo env t e tr attempt 0 prev last).effects = [] := by
  rcases last with _ | ⟨r, q⟩ <;> simp [solverCriticGo, effects_liftE]

set_option maxHeartbeats 1000000 in
/-- With `fuel` iterations of budget left, the loop issues at most `fuel`
further solver calls — whatever the providers answer, and on every error
path. -/
theorem countCalls_go_solver_le (env : PipeEnv) (t e tr : Json) :
    ∀ (fuel attempt : Nat) (prev : Option Json) (last : Option (Json × Json)),
      countCalls "solver"
        (solverCriticGo env t e tr attempt fuel prev last).effects ≤ fuel := by
  intro fuel
  induction fuel with
  | zero =>
    intro attempt prev last
    rcases last with _ | ⟨r, q⟩ <;>
      simp [solverCriticGo, effects_liftE, countCalls]
  | succ fuel ih =>
    intro attempt prev last
    simp only [solverCriticGo]
    simp only [countCalls_effects_bind, effects_liftE, effects_emitStep,
      effects_emitEffects, res_liftE, res_emitStep0, res_emitEffects0,
      countCalls_nil, countCalls_agentCall, Nat.zero_add, Nat.add_zero]
    simp only [reduceIte, String.reduceEq]
    repeat' split
    all_goals try omega
    all_goals (simp only [countCalls_effects_bind, effects_liftE, res_liftE,
      countCalls_nil, Nat.zero_add, Nat.add_zero]; try (repeat' split))
    all_goals try omega
    all_goals (first
      | simpa [Nat.add_comm] using Nat.add_le_add_left (ih _ _ _) 1
      | exact le_trans (ih _ _ _) (Nat.le_succ _)
      | simp [countCalls, effects_liftE])

set_option maxHeartbeats 1000000 in
/-- The same budget bound for critic calls. -/
theorem countCalls_go_critic_le (env : PipeEnv) (t e tr : Json) :
    ∀ (fuel attempt : Nat) (prev : Option Json) (last : Option (Json × Json)),
      countCalls "critic"
        (solverCriticGo env t e tr attempt fuel prev last).effects ≤ fuel := by
  intro fuel
  induction fuel with
  | zero =>
    intro attempt prev last
    rcases last with _ | ⟨r, q⟩ <;>
      simp [solverCriticGo, effects_liftE, countCalls]
  | succ fuel ih =>
    intro attempt prev last
    simp only [solverCriticGo]
    simp only [countCalls_effects_bind, effects_liftE, effects_emitStep,
      effects_emitEffects, res_liftE, res_emitStep0, res_emitEffects0,
      countCalls_nil, countCalls_agentCall, Nat.zero_add, Nat.add_zero]
    simp only [reduceIte, String.reduceEq]
    repeat' split
    all_goals try omega
    all_goals (simp only [countCalls_effects_bind, effects_liftE, res_liftE,
      countCalls_nil, Nat.zero_add, Nat.add_zero]; try (repeat' split))
    all_goals try omega
    all_goals (first
      | simpa [Nat.add_comm] using Nat.add_le_add_left (ih _ _ _) 1
      | exact le_trans (ih _ _ _) (Nat.le_succ _)
      | simp [countCalls, effects_liftE])

theorem countCalls_updateTicketEs (a : String) (fails : Bool) (tid : Json)
    (ups : List (String × Json)) :
    countCalls a (updateTicketEs fails tid ups) = 0 := by
  cases fails <;> rfl

/-- The retry loop as a whole (including its trailing ticket update)
makes at most `MAX_SOLVER_ATTEMPTS` calls to the given provider. -/
theorem countCalls_loop_le (env : PipeEnv) (t e tr : Json) (a : String)
    (hbound : ∀ fuel attempt prev last,
      countCalls a (solverCriticGo env t e tr attempt fuel prev last).effects ≤ fuel) :
    countCalls a (runSolverCriticLoop env t e tr).effects ≤ MAX_SOLVER_ATTEMPTS := by
  simp only [runSolverCriticLoop, countCalls_effects_bind, effects_liftE,
    effects_emitEffects, res_liftE, res_emitEffects0, countCalls_nil,
    countCalls_updateTicketEs, Nat.zero_add, Nat.add_zero]
  repeat' split
  all_goals try simp only [countCalls_nil, countCalls_updateTicketEs,
    Nat.zero_add, Nat.add_zero]
  all_goals (first
    | exact hbound MAX_SOLVER_ATTEMPTS 1 none none
    | simpa using hbound MAX_SOLVER_ATTEMPTS 1 none none
    | omega)

theorem excBind_ok {α β : Type} (a : α) (f : α → Except PyErr β) :
    (Except.ok a >>= f) = f a := rfl

theorem excBind_err {α β : Type} (e : PyErr) (f : α → Except PyErr β) :
    (Except.error e >>= f : Except PyErr β) = .error e := rfl

/-- What `process_ticket` returns once the pre-boundary intake logging
went through: the trace as `pipelineTrace`, followed by the persistence
write. -/
theorem process_ticket_eq (env : PipeEnv) (ts : List (String × Json)) (sl : Json)
    (hslice : ((Json.lookup ts "title").getD (.str "N/A")).pySlice 60 = .ok sl) :
    process_ticket env (.obj ts) =
      .ok { trace := pipelineTrace env ts,
            effects := (pipelineBody env (.obj ts)).effects ++
              writePipelineTrace env (pipelineTrace env ts) } := by
  simp only [process_ticket, Json.pyGetD, excBind_ok, hslice]
  rcases hb : (pipelineBody env (.obj ts)).res with e | ⟨d, rt⟩ <;>
    simp [pipelineTrace, hb]

/-! ### Claim C1 -/

/-- C1, counterexample: a resolution whose confidence 0.95 clears the
auto-resolve threshold but whose provider-written `decision` field says
`escalate` is routed to `escalate`, not `auto_resolve` — the pipeline
never compares the confidence against the configured thresholds. -/
theorem C1_routing_not_from_confidence_cex :
    AUTO_RESOLVE_THRESHOLD ≤ 0.95 ∧
    (executeDecision envBase cTicket (solverRespObj "d" 0.95 "escalate")
      (.obj [])).res =
      .ok (.obj [("decision", .str "escalate"), ("resolution_text", .str "d")]) ∧
    "escalate" ≠ "auto_resolve" := by
  refine ⟨by norm_num [AUTO_RESOLVE_THRESHOLD], ?_, by decide⟩
  rfl

/-- C1, amended: the routing decision `_execute_decision` returns (and
records as the run's final decision) is exactly the resolution's
`decision` field, whatever string the provider put there; when the field
is absent it defaults to `escalate`.  The confidence only feeds logging,
notifications and the trace record. -/
theorem C1_decision_is_provider_field :
    (∀ (env : PipeEnv) (d rd tid : String) (c q : ℚ) (trs : List (String × Json)),
      (executeDecision env (.obj [("ticket_id", .str tid)])
        (.obj [("resolution_draft", .str rd), ("confidence", .num c),
               ("decision", .str d), ("critic_quality_score", .num q)])
        (.obj trs)).res =
      .ok (.obj [("decision", .str d), ("resolution_text", .str rd)])) ∧
    (∀ (env : PipeEnv) (rd tid : String) (c : ℚ) (trs : List (String × Json)),
      (executeDecision env (.obj [("ticket_id", .str tid)])
        (.obj [("resolution_draft", .str rd), ("confidence", .num c)])
        (.obj trs)).res =
      .ok (.obj [("decision", .str "escalate"), ("resolution_text", .str rd)])) := by
  constructor
  · intro env d rd tid c q trs
    by_cases h1 : d = "auto_resolve"
    · subst h1; rfl
    · by_cases h2 : d = "draft_for_approval"
      · subst h2; rfl
      · simp only [executeDecision, Json.pyGetD, Json.lookup, Json.pySubscript,
          Json.eqStr, res_liftE_ok, res_emitStep, res_emitEffects, pure_res,
          fmtFixed, fmtPct, Json.pySlice, Json.pyGet]
        simp [h1, h2, res_liftE_ok, res_emitStep, res_emitEffects, pure_res]
  · intro env rd tid c trs
    rfl

/-- C1, witness for the amended theorem at a concrete
`draft_for_approval` resolution. -/
theorem C1_decision_is_provider_field_witness :
    (executeDecision envBase (.obj [("ticket_id", .str "T-1")])
      (.obj [("resolution_draft", .str "ok"), ("confidence", .num 0.8),
             ("decision", .str "draft_for_approval"),
             ("critic_quality_score", .num 0.7)])
      (.obj [])).res =
      .ok (.obj [("decision", .str "draft_for_approval"),
                 ("resolution_text", .str "ok")]) :=
  C1_decision_is_provider_field.1 envBase "draft_for_approval" "ok" "T-1" 0.8 0.7 []

/-! ### Claim C5 -/

/-- C5: whenever the provider's extracted reply text fails JSON parsing
(after fence stripping), `send_message` still returns normally, with
`success = false` and `parsed` holding only the raw text under the
`raw_response` sentinel key. -/
theorem C5_unparseable_degraded_success (env : ClientEnv)
    (loads : String → Option Json) (agent message : String)
    (context : Option Json) (session_id : Option String) (aid : String)
    (resp : HttpResp) (result : Json)
    (ha : AGENT_IDS.lookup agent = some aid)
    (hpost : env.post (a2aPayload message context env.request_id env.message_id
      (session_id.getD env.session_id)) = .ok resp)
    (hstatus : resp.status_code = 200)
    (hbody : resp.body = .ok result)
    (hparse : cleanAndParse loads (extractText result) = none) :
    send_message env loads agent message context session_id =
      .ok { agent := agent, session_id := session_id.getD env.session_id,
            request_id := env.request_id, response_text := extractText result,
            parsed := .obj [("raw_response", .str (extractText result))],
            duration_ms := env.elapsed_ms, success := false } := by
  simp only [send_message, ha, hpost, excBind_ok, hstatus, hbody, hparse]
  rfl

/-- C5, witness: a concrete 200 reply whose text part is plain prose. -/
theorem C5_unparseable_degraded_success_witness :
    send_message cEnvOk loadsNone "solver" "hello" none none =
      .ok { agent := "solver", session_id := "sess-1", request_id := "req-1",
            response_text := "not json at all",
            parsed := .obj [("raw_response", .str "not json at all")],
            duration_ms := 7, success := false } := by
  rw [C5_unparseable_degraded_success cEnvOk loadsNone "solver" "hello" none none
    "supportiq_solver" cRespOk cRespBody (by rfl) (by rfl) (by rfl) (by rfl)
    (by with_unfolding_all rfl)]
  with_unfolding_all rfl

/-! ### Claim C8 -/

set_option maxRecDepth 10000 in
/-- C8, counterexample: on a non-success status the raised error message
carries the response body in full — a 600-character body appears
verbatim, it is not truncated. -/
theorem C8_full_body_cex :
    send_message cEnv503 loadsNone "solver" "m" none none =
      .error (.runtimeError (c8msghead ++ longBody)) ∧
    longBody.length = 600 := by
  exact ⟨by with_unfolding_all rfl, by with_unfolding_all rfl⟩

/-- C8, amended: a non-success transport status makes `send_message`
fail with the runtime error whose message carries the status code and
the full (untruncated) response body. -/
theorem C8_provider_call_failed (env : ClientEnv)
    (loads : String → Option Json) (agent message : String)
    (context : Option Json) (session_id : Option String) (aid : String)
    (resp : HttpResp)
    (ha : AGENT_IDS.lookup agent = some aid)
    (hpost : env.post (a2aPayload message context env.request_id env.message_id
      (session_id.getD env.session_id)) = .ok resp)
    (hstatus : resp.status_code ≠ 200) :
    send_message env loads agent message context session_id =
      .error (.runtimeError ("A2A call to " ++ sq ++ agent ++ sq ++
        " failed: " ++ toString resp.status_code ++ " — " ++ resp.text)) := by
  simp [send_message, ha, hpost, excBind_ok, hstatus]

/-- C8, witness for the amended theorem: status 503. -/
theorem C8_provider_call_failed_witness :
    send_message cEnv503 loadsNone "judge" "m" none none =
      .error (.runtimeError ("A2A call to " ++ sq ++ "judge" ++ sq ++
        " failed: " ++ toString (503 : Nat) ++ " — " ++ longBody)) := by
  rw [C8_provider_call_failed cEnv503 loadsNone "judge" "m" none none
    "supportiq_judge" ⟨503, longBody, .error (.valueError "not json")⟩
    rfl rfl (by decide)]

/-! ### Claim C9 -/

/-- C9, counterexample: a configuration whose bands overlap incorrectly
(`ESCALATE_CONFIDENCE_THRESHOLD = 0.90 > 0.50 =
AUTO_RESOLVE_CONFIDENCE_THRESHOLD`) loads successfully — nothing rejects
it at configuration-load time. -/
theorem C9_no_load_time_validation_cex :
    loadThresholds ⟨some "0.50", some "0.90", none⟩ = .ok (0.5, 0.9, 0.75) ∧
    ¬((0.9 : ℚ) ≤ 0.5) := by
  exact ⟨by with_unfolding_all rfl, by norm_num⟩

/-- C9, amended: configuration load parses the three thresholds with
`float()` and accepts every parseable combination; the ordering
`escalate_threshold ≤ auto_resolve_threshold` is never checked. -/
theorem C9_thresholds_accepted_unvalidated (sa se sc : String) (qa qe qc : ℚ)
    (ha : pyFloat sa = .ok qa) (he : pyFloat se = .ok qe)
    (hc : pyFloat sc = .ok qc) :
    loadThresholds ⟨some sa, some se, some sc⟩ = .ok (qa, qe, qc) := by
  simp [loadThresholds, ha, he, hc, excBind_ok]

/-- A `titleOk` ticket's title slices successfully. -/
theorem titleOk_slice (ts : List (String × Json)) (h : titleOk ts = true) :
    ∃ sl, ((Json.lookup ts "title").getD (.str "N/A")).pySlice 60 = .ok sl := by
  unfold titleOk at h
  rcases hl : Json.lookup ts "title" with _ | v
  · exact ⟨_, rfl⟩
  · rw [hl] at h
    cases v <;> first
      | exact ⟨_, rfl⟩
      | simp at h

/-! ### Claim C4 -/

set_option maxRecDepth 10000 in
/-- C4, counterexample: a run whose solver reply carries the
out-of-vocabulary decision string `defer` completes without error and
records `defer` as the trace's final decision — the orchestrator does
not constrain the decision to
`auto_resolve | draft_for_approval | escalate | error`. -/
theorem C4_final_decision_vocabulary_cex :
    (process_ticket envDefer cTicket).map (fun r => r.trace.final_decision) =
      .ok (some (.str "defer")) ∧
    "defer" ∉ (["auto_resolve", "draft_for_approval", "escalate", "error"] :
      List String) := by
  exact ⟨by with_unfolding_all rfl, by decide⟩

/-- C4, amended: for every ticket whose title survives the intake
logging, `process_ticket` returns a trace with a non-null final
decision; whenever an error was recorded, the final decision is the
sentinel `error`; and the trace write is always attempted.  (On success
the final decision is the resolution's `decision` string, which the code
does not restrict to the three routing actions — see C1.) -/
theorem C4_error_boundary (env : PipeEnv) (ts : List (String × Json))
    (h : titleOk ts = true) :
    ∃ r, process_ticket env (.obj ts) = .ok r ∧
      r.trace.final_decision.isSome ∧
      (∀ e, r.trace.error = some e →
        r.trace.final_decision = some (.str "error")) ∧
      r.effects.any isTraceWrite = true := by
  obtain ⟨sl, hs⟩ := titleOk_slice ts h
  rw [process_ticket_eq env ts sl hs]
  refine ⟨_, rfl, ?_, ?_, ?_⟩
  · rcases hb : (pipelineBody env (.obj ts)).res with e | p <;>
      simp [pipelineTrace, hb]
  · intro e he
    rcases hb : (pipelineBody env (.obj ts)).res with er | p
    · simp [pipelineTrace, hb]
    · simp [pipelineTrace, hb] at he
  · rw [writePipelineTrace_eq]
    simp [isTraceWrite, List.any_append]

/-- C4, witness: a concrete successful run has a non-null final decision
and an attempted trace write. -/
theorem C4_error_boundary_witness :
    (process_ticket envBase
      (.obj [("ticket_id", .str "T-1"), ("title", .str "help")])).map
        (fun r => (r.trace.final_decision.isSome, r.effects.any isTraceWrite)) =
      .ok (true, true) := by
  obtain ⟨r, h1, h2, h3, h4⟩ :=
    C4_error_boundary envBase [("ticket_id", .str "T-1"), ("title", .str "help")]
      (by rfl)
  rw [h1]
  simp [Except.map, h2, h4]

/-! ### Claim C10 -/

/-- C10: a ticket dict without a `ticket_id` key still yields a trace
(under the generated fallback id), but the run's final decision is the
sentinel `error`: the enrich stage's direct `ticket["ticket_id"]` index
raises a `KeyError` that the top-level boundary catches and records, and
the trace is still persisted. -/
theorem C10_missing_ticket_id_error_run (env : PipeEnv)
    (ts : List (String × Json)) (d : Nat)
    (hw : env.watcher = .ok ⟨.obj [], d⟩)
    (hid : Json.lookup ts "ticket_id" = none)
    (ht : titleOk ts = true) :
    ∃ r, process_ticket env (.obj ts) = .ok r ∧
      r.trace.ticket_id = .str ("TKT-" ++ toString env.now) ∧
      r.trace.final_decision = some (.str "error") ∧
      r.trace.error = some (sq ++ "ticket_id" ++ sq) ∧
      r.effects.any isTraceWrite = true := by
  obtain ⟨sl, hs⟩ := titleOk_slice ts ht
  have hwatch : (runWatcher env (.obj ts)).res = .error (.keyError "ticket_id") := by
    simp [runWatcher, hw, res_liftE_ok, res_emitStep, res_emitEffects,
      Json.pyGetD, Json.lookup, Json.pySubscript, hid, res_liftE_err, res_liftE]
  have hbody : (pipelineBody env (.obj ts)).res = .error (.keyError "ticket_id") := by
    simp [pipelineBody, res_bind, hwatch]
  rw [process_ticket_eq env ts sl hs]
  refine ⟨_, rfl, ?_, ?_, ?_, ?_⟩
  · simp [pipelineTrace, hid]
  · simp [pipelineTrace, hbody]
  · simp [pipelineTrace, hbody, PyErr.toStr]
  · rw [writePipelineTrace_eq]
    simp [isTraceWrite, List.any_append]

/-- C10, witness: the concrete id-less ticket. -/
theorem C10_missing_ticket_id_error_run_witness :
    (process_ticket envBase (.obj [("title", .str "printer on fire")])).map
      (fun r => (r.trace.ticket_id, r.trace.final_decision, r.trace.error)) =
      .ok (.str "TKT-111", some (.str "error"),
           some (sq ++ "ticket_id" ++ sq)) := by
  obtain ⟨r, h1, h2, h3, h4, h5⟩ :=
    C10_missing_ticket_id_error_run envBase [("title", .str "printer on fire")]
      5 rfl rfl rfl
  rw [h1]
  simp only [Except.map, h2, h3, h4]
  rfl

/-- Result of the whole retry-loop stage once the loop's own result is
known: the trailing ticket update succeeds and the final resolution is
returned unchanged. -/
theorem runLoop_res (env : PipeEnv) (ts : List (String × Json)) (e tr tidv : Json)
    (ffs : List (String × Json))
    (hgo : (solverCriticGo env (.obj ts) e tr 1 MAX_SOLVER_ATTEMPTS none none).res =
      .ok (.obj ffs))
    (htid : Json.lookup ts "ticket_id" = some tidv) :
    (runSolverCriticLoop env (.obj ts) e tr).res = .ok (.obj ffs) := by
  simp [runSolverCriticLoop, res_bind, hgo, res_liftE_ok, res_emitStep,
    res_emitEffects, Json.pyGetD, Json.pyGet, Json.pySubscript, Json.lookup,
    htid, updateTicketEs_eq, liftE, emitEffects, pure]

/-- Effects of the whole retry-loop stage: the loop's calls followed by
the single ticket update. -/
theorem runLoop_effects (env : PipeEnv) (ts : List (String × Json))
    (e tr tidv : Json) (ffs : List (String × Json))
    (hgo : (solverCriticGo env (.obj ts) e tr 1 MAX_SOLVER_ATTEMPTS none none).res =
      .ok (.obj ffs))
    (htid : Json.lookup ts "ticket_id" = some tidv) :
    (runSolverCriticLoop env (.obj ts) e tr).effects =
      (solverCriticGo env (.obj ts) e tr 1 MAX_SOLVER_ATTEMPTS none none).effects ++
      [.esUpdate tidv
        [("resolution_draft", (Json.lookup ffs "resolution_draft").getD .null),
         ("resolution_confidence", (Json.lookup ffs "confidence").getD .null),
         ("critic_score", (Json.lookup ffs "critic_quality_score").getD .null),
         ("resolution_attempts", (Json.lookup ffs "attempts").getD .null),
         ("status", .str "resolved_draft")]] := by
  simp [runSolverCriticLoop, effects_bind, res_bind, hgo, res_liftE,
    effects_liftE, effects_emitEffects, res_emitEffects0, Json.pyGetD,
    Json.pyGet, Json.pySubscript, Json.lookup, htid, updateTicketEs_eq,
    liftE, emitEffects, pure]

theorem countCalls_esUpdate (a : String) (tid : Json) (ups : List (String × Json)) :
    countCalls a [.esUpdate tid ups] = 0 := rfl

/-! ### Claim C2 -/

/-- C2: (i) on every run — whatever the providers answer, including
error paths — the retry loop makes at most 3 solver calls and at most 3
critic calls; (ii) when all three attempts are rejected the loop still
returns normally: the final resolution is the last attempt's draft with
`critic_quality_score` from the last review, `attempts = 3`,
`quality_warning = true`, and `final = true`. -/
theorem C2_retry_ceiling_and_forced_exit :
    (∀ (env : PipeEnv) (t e tr : Json),
      countCalls "solver" (runSolverCriticLoop env t e tr).effects ≤ 3 ∧
      countCalls "critic" (runSolverCriticLoop env t e tr).effects ≤ 3) ∧
    (∀ (env : PipeEnv) (ts : List (String × Json)) (e tr tidv : Json)
      (dr : Nat → String) (cf : Nat → ℚ) (dc : Nat → String)
      (qs : Nat → ℚ) (cd : Nat → String) (cr im : Nat → String)
      (sd cdur : Nat → Nat),
      (∀ i, env.solver i = .ok ⟨solverRespObj (dr i) (cf i) (dc i), sd i⟩) →
      (∀ i, env.critic i = .ok ⟨criticRespObj (qs i) (cd i) (cr i) (im i), cdur i⟩) →
      (∀ i, cd i ≠ "APPROVED") →
      Json.lookup ts "ticket_id" = some tidv →
      (runSolverCriticLoop env (.obj ts) e tr).res =
        .ok (.obj [("resolution_draft", .str (dr 3)), ("confidence", .num (cf 3)),
          ("decision", .str (dc 3)), ("critic_quality_score", .num (qs 3)),
          ("attempts", .num 3), ("quality_warning", .bool true),
          ("final", .bool true)])) := by
  constructor
  · intro env t e tr
    exact ⟨countCalls_loop_le env t e tr "solver"
             (countCalls_go_solver_le env t e tr),
           countCalls_loop_le env t e tr "critic"
             (countCalls_go_critic_le env t e tr)⟩
  · intro env ts e tr tidv dr cf dc qs cd cr im sd cdur hsolver hcritic hrej htid
    have hgo : (solverCriticGo env (.obj ts) e tr 1 MAX_SOLVER_ATTEMPTS none none).res =
        .ok (.obj [("resolution_draft", .str (dr 3)), ("confidence", .num (cf 3)),
          ("decision", .str (dc 3)), ("critic_quality_score", .num (qs 3)),
          ("attempts", .num 3), ("quality_warning", .bool true),
          ("final", .bool true)]) := by
      show (solverCriticGo env (.obj ts) e tr 1 (2 + 1) none none).res = _
      rw [go_iter_rejected_res env ts e tr 1 2 none none (dr 1) (cf 1) (dc 1)
        (qs 1) (cd 1) (cr 1) (im 1) (sd 1) (cdur 1) (hsolver 1) (hcritic 1) (hrej 1)]
      show (solverCriticGo env (.obj ts) e tr 2 (1 + 1) _ _).res = _
      rw [go_iter_rejected_res env ts e tr 2 1 _ _ (dr 2) (cf 2) (dc 2)
        (qs 2) (cd 2) (cr 2) (im 2) (sd 2) (cdur 2) (hsolver 2) (hcritic 2) (hrej 2)]
      show (solverCriticGo env (.obj ts) e tr 3 (0 + 1) _ _).res = _
      rw [go_iter_rejected_res env ts e tr 3 0 _ _ (dr 3) (cf 3) (dc 3)
        (qs 3) (cd 3) (cr 3) (im 3) (sd 3) (cdur 3) (hsolver 3) (hcritic 3) (hrej 3)]
      exact go_base_res env ts e tr 4 _ (dr 3) (cf 3) (dc 3) (.num (qs 3))
    exact runLoop_res env ts e tr tidv _ hgo htid

/-- C2, witness: the all-rejections environment, with the loop ending in
the flagged forced exit. -/
theorem C2_retry_ceiling_and_forced_exit_witness :
    countCalls "solver" (runSolverCriticLoop envRejectAll cTicket (.obj [])
      (.obj [])).effects ≤ 3 ∧
    (runSolverCriticLoop envRejectAll
      (.obj [("ticket_id", .str "T-1"), ("title", .str "help")])
      (.obj []) (.obj [])).res =
      .ok (.obj [("resolution_draft", .str "draft text"), ("confidence", .num 0.95),
        ("decision", .str "auto_resolve"), ("critic_quality_score", .num 0.5),
        ("attempts", .num 3), ("quality_warning", .bool true),
        ("final", .bool true)]) :=
  ⟨(C2_retry_ceiling_and_forced_exit.1 envRejectAll cTicket (.obj []) (.obj [])).1,
   C2_retry_ceiling_and_forced_exit.2 envRejectAll
     [("ticket_id", .str "T-1"), ("title", .str "help")] (.obj []) (.obj [])
     (.str "T-1") (fun _ => "draft text") (fun _ => 0.95) (fun _ => "auto_resolve")
     (fun _ => 0.5) (fun _ => "REJECTED") (fun _ => "too vague")
     (fun _ => "add steps") (fun _ => 7) (fun _ => 9)
     (fun _ => rfl) (fun _ => rfl) (fun _ => by simp) rfl⟩

/-! ### Claim C3 -/

/-- C3: when the critic's verdict is exactly `APPROVED` at iteration `k`
(after rejections before it), the loop terminates there: exactly `k`
solver calls and `k` critic calls are made, the final resolution records
`attempts = k` and `final = true`, and carries no `quality_warning`
field. -/
theorem C3_approval_terminates (env : PipeEnv) (ts : List (String × Json))
    (e tr tidv : Json) (k : Nat)
    (dr : Nat → String) (cf : Nat → ℚ) (dc : Nat → String)
    (qs : Nat → ℚ) (cd : Nat → String) (cr im : Nat → String)
    (sd cdur : Nat → Nat)
    (hk1 : 1 ≤ k) (hk3 : k ≤ 3)
    (hsolver : ∀ i, env.solver i = .ok ⟨solverRespObj (dr i) (cf i) (dc i), sd i⟩)
    (hcritic : ∀ i, env.critic i = .ok ⟨criticRespObj (qs i) (cd i) (cr i) (im i), cdur i⟩)
    (hbefore : ∀ i, i < k → cd i ≠ "APPROVED")
    (happ : cd k = "APPROVED")
    (htid : Json.lookup ts "ticket_id" = some tidv) :
    (runSolverCriticLoop env (.obj ts) e tr).res =
      .ok (.obj [("resolution_draft", .str (dr k)), ("confidence", .num (cf k)),
        ("decision", .str (dc k)), ("critic_quality_score", .num (qs k)),
        ("attempts", .num k), ("final", .bool true)]) ∧
    countCalls "solver" (runSolverCriticLoop env (.obj ts) e tr).effects = k ∧
    countCalls "critic" (runSolverCriticLoop env (.obj ts) e tr).effects = k ∧
    Json.lookup [("resolution_draft", Json.str (dr k)), ("confidence", .num (cf k)),
      ("decision", .str (dc k)), ("critic_quality_score", .num (qs k)),
      ("attempts", .num k), ("final", .bool true)] "quality_warning" = none := by
  have hck : env.critic k =
      .ok ⟨criticRespObj (qs k) "APPROVED" (cr k) (im k), cdur k⟩ := by
    rw [hcritic k, happ]
  interval_cases k
  · have hgo : (solverCriticGo env (.obj ts) e tr 1 MAX_SOLVER_ATTEMPTS none none).res =
        .ok (.obj [("resolution_draft", .str (dr 1)), ("confidence", .num (cf 1)),
          ("decision", .str (dc 1)), ("critic_quality_score", .num (qs 1)),
          ("attempts", .num 1), ("final", .bool true)]) :=
      go_iter_approved_res env ts e tr 1 2 none none (dr 1) (cf 1) (dc 1)
        (qs 1) (cr 1) (im 1) (sd 1) (cdur 1) (hsolver 1) hck
    have heff : (solverCriticGo env (.obj ts) e tr 1 MAX_SOLVER_ATTEMPTS none none).effects =
        [.agentCall "solver" (solverMessage (.obj ts) e tr none),
         .agentCall "critic" (criticMsgOf ts (solverRespObj (dr 1) (cf 1) (dc 1)))] :=
      go_iter_approved_eff env ts e tr 1 2 none none (dr 1) (cf 1) (dc 1)
        (qs 1) (cr 1) (im 1) (sd 1) (cdur 1) (hsolver 1) hck
    refine ⟨runLoop_res env ts e tr tidv _ hgo htid, ?_, ?_, by simp [Json.lookup]⟩ <;>
      rw [runLoop_effects env ts e tr tidv _ hgo htid, heff] <;>
      simp [countCalls_append, countCalls, isCallTo, countCalls_esUpdate]
  · have hgo : (solverCriticGo env (.obj ts) e tr 1 MAX_SOLVER_ATTEMPTS none none).res =
        .ok (.obj [("resolution_draft", .str (dr 2)), ("confidence", .num (cf 2)),
          ("decision", .str (dc 2)), ("critic_quality_score", .num (qs 2)),
          ("attempts", .num 2), ("final", .bool true)]) := by
      show (solverCriticGo env (.obj ts) e tr 1 (2 + 1) none none).res = _
      rw [go_iter_rejected_res env ts e tr 1 2 none none (dr 1) (cf 1) (dc 1)
        (qs 1) (cd 1) (cr 1) (im 1) (sd 1) (cdur 1) (hsolver 1) (hcritic 1)
        (hbefore 1 (by omega))]
      exact go_iter_approved_res env ts e tr 2 1 _ _ (dr 2) (cf 2) (dc 2)
        (qs 2) (cr 2) (im 2) (sd 2) (cdur 2) (hsolver 2) hck
    have heff : (solverCriticGo env (.obj ts) e tr 1 MAX_SOLVER_ATTEMPTS none none).effects =
        .agentCall "solver" (solverMessage (.obj ts) e tr none) ::
        .agentCall "critic" (criticMsgOf ts (solverRespObj (dr 1) (cf 1) (dc 1))) ::
        [.agentCall "solver" (solverMessage (.obj ts) e tr
            (some (prevAttemptObj (dr 1) (cf 1) (cr 1) (im 1)))),
         .agentCall "critic" (criticMsgOf ts (solverRespObj (dr 2) (cf 2) (dc 2)))] := by
      show (solverCriticGo env (.obj ts) e tr 1 (2 + 1) none none).effects = _
      rw [go_iter_rejected_eff env ts e tr 1 2 none none (dr 1) (cf 1) (dc 1)
        (qs 1) (cd 1) (cr 1) (im 1) (sd 1) (cdur 1) (hsolver 1) (hcritic 1)
        (hbefore 1 (by omega))]
      rw [go_iter_approved_eff env ts e tr 2 1 _ _ (dr 2) (cf 2) (dc 2)
        (qs 2) (cr 2) (im 2) (sd 2) (cdur 2) (hsolver 2) hck]
    refine ⟨runLoop_res env ts e tr tidv _ hgo htid, ?_, ?_, by simp [Json.lookup]⟩ <;>
      rw [runLoop_effects env ts e tr tidv _ hgo htid, heff] <;>
      simp [countCalls_append, countCalls, isCallTo, countCalls_esUpdate]
  · have hgo : (solverCriticGo env (.obj ts) e tr 1 MAX_SOLVER_ATTEMPTS none none).res =
        .ok (.obj [("resolution_draft", .str (dr 3)), ("confidence", .num (cf 3)),
          ("decision", .str (dc 3)), ("critic_quality_score", .num (qs 3)),
          ("attempts", .num 3), ("final", .bool true)]) := by
      show (solverCriticGo env (.obj ts) e tr 1 (2 + 1) none none).res = _
      rw [go_iter_rejected_res env ts e tr 1 2 none none (dr 1) (cf 1) (dc 1)
        (qs 1) (cd 1) (cr 1) (im 1) (sd 1) (cdur 1) (hsolver 1) (hcritic 1)
        (hbefore 1 (by omega))]
      show (solverCriticGo env (.obj ts) e tr 2 (1 + 1) _ _).res = _
      rw [go_iter_rejected_res env ts e tr 2 1 _ _ (dr 2) (cf 2) (dc 2)
        (qs 2) (cd 2) (cr 2) (im 2) (sd 2) (cdur 2) (hsolver 2) (hcritic 2)
        (hbefore 2 (by omega))]
      exact go_iter_approved_res env ts e tr 3 0 _ _ (dr 3) (cf 3) (dc 3)
        (qs 3) (cr 3) (im 3) (sd 3) (cdur 3) (hsolver 3) hck
    have heff : (solverCriticGo env (.obj ts) e tr 1 MAX_SOLVER_ATTEMPTS none none).effects =
        .agentCall "solver" (solverMessage (.obj ts) e tr none) ::
        .agentCall "critic" (criticMsgOf ts (solverRespObj (dr 1) (cf 1) (dc 1))) ::
        .agentCall "solver" (solverMessage (.obj ts) e tr
            (some (prevAttemptObj (dr 1) (cf 1) (cr 1) (im 1)))) ::
        .agentCall "critic" (criticMsgOf ts (solverRespObj (dr 2) (cf 2) (dc 2))) ::
        [.agentCall "solver" (solverMessage (.obj ts) e tr
            (some (prevAttemptObj (dr 2) (cf 2) (cr 2) (im 2)))),
         .agentCall "critic" (criticMsgOf ts (solverRespObj (dr 3) (cf 3) (dc 3)))] := by
      show (solverCriticGo env (.obj ts) e tr 1 (2 + 1) none none).effects = _
      rw [go_iter_rejected_eff env ts e tr 1 2 none none (dr 1) (cf 1) (dc 1)
        (qs 1) (cd 1) (cr 1) (im 1) (sd 1) (cdur 1) (hsolver 1) (hcritic 1)
        (hbefore 1 (by omega))]
      rw [go_iter_rejected_eff env ts e tr 2 1 _ _ (dr 2) (cf 2) (dc 2)
        (qs 2) (cd 2) (cr 2) (im 2) (sd 2) (cdur 2) (hsolver 2) (hcritic 2)
        (hbefore 2 (by omega))]
      rw [go_iter_approved_eff env ts e tr 3 0 _ _ (dr 3) (cf 3) (dc 3)
        (qs 3) (cr 3) (im 3) (sd 3) (cdur 3) (hsolver 3) hck]
    refine ⟨runLoop_res env ts e tr tidv _ hgo htid, ?_, ?_, by simp [Json.lookup]⟩ <;>
      rw [runLoop_effects env ts e tr tidv _ hgo htid, heff] <;>
      simp [countCalls_append, countCalls, isCallTo, countCalls_esUpdate]

/-- C3, witness: approval on the first attempt in the happy-path
environment. -/
theorem C3_approval_terminates_witness :
    (runSolverCriticLoop envApproveFirst
      (.obj [("ticket_id", .str "T-1"), ("title", .str "help")])
      (.obj []) (.obj [])).res =
      .ok (.obj [("resolution_draft", .str "draft text"), ("confidence", .num 0.95),
        ("decision", .str "auto_resolve"), ("critic_quality_score", .num 0.8),
        ("attempts", .num 1), ("final", .bool true)]) ∧
    countCalls "solver" (runSolverCriticLoop envApproveFirst
      (.obj [("ticket_id", .str "T-1"), ("title", .str "help")])
      (.obj []) (.obj [])).effects = 1 :=
  have h := C3_approval_terminates envApproveFirst
    [("ticket_id", .str "T-1"), ("title", .str "help")] (.obj []) (.obj [])
    (.str "T-1") 1 (fun _ => "draft text") (fun _ => 0.95)
    (fun _ => "auto_resolve") (fun _ => 0.8)
    (fun i => if i = 1 then "APPROVED" else "REJECTED")
    (fun _ => "") (fun _ => "") (fun _ => 7) (fun _ => 9)
    (by omega) (by omega) (fun _ => rfl)
    (fun i => by simp [envApproveFirst, approveFirstCritic])
    (fun i hi => by have h0 : i = 0 := by omega
                    subst h0; simp) (by simp) rfl
  ⟨h.1, h.2.1⟩

/-! ### Claim C7 -/

/-- C7: attempt 1's solver message is the bare base message (no prior
feedback), and each later attempt's message is the base message plus the
rejection-feedback section, whose serialized `previous_attempt` record
holds exactly the previous attempt's draft, its confidence, the critic's
critique, and the improvement guidance (`rejectionFeedback` itself
carries the explicit do-not-repeat instruction around that record). -/
theorem C7_feedback_threading (env : PipeEnv) (ts : List (String × Json))
    (e tr tidv : Json)
    (dr : Nat → String) (cf : Nat → ℚ) (dc : Nat → String)
    (qs : Nat → ℚ) (cd : Nat → String) (cr im : Nat → String)
    (sd cdur : Nat → Nat)
    (hsolver : ∀ i, env.solver i = .ok ⟨solverRespObj (dr i) (cf i) (dc i), sd i⟩)
    (hcritic : ∀ i, env.critic i = .ok ⟨criticRespObj (qs i) (cd i) (cr i) (im i), cdur i⟩)
    (hrej : ∀ i, cd i ≠ "APPROVED")
    (htid : Json.lookup ts "ticket_id" = some tidv) :
    callMessages "solver" (runSolverCriticLoop env (.obj ts) e tr).effects =
      [solverBaseMessage (.obj ts) e tr,
       solverBaseMessage (.obj ts) e tr ++
         rejectionFeedback (prevAttemptObj (dr 1) (cf 1) (cr 1) (im 1)),
       solverBaseMessage (.obj ts) e tr ++
         rejectionFeedback (prevAttemptObj (dr 2) (cf 2) (cr 2) (im 2))] ∧
    (∀ (p : Json), rejectionFeedback p =
      "\n\n⚠️ PREVIOUS ATTEMPT WAS REJECTED by the Critic Agent.\nprevious_attempt: " ++
      dumps p ++
      "\n\nDO NOT repeat the same mistakes. Address every point in critic_feedback.") := by
  have hgo : (solverCriticGo env (.obj ts) e tr 1 MAX_SOLVER_ATTEMPTS none none).res =
      .ok (.obj [("resolution_draft", .str (dr 3)), ("confidence", .num (cf 3)),
        ("decision", .str (dc 3)), ("critic_quality_score", .num (qs 3)),
        ("attempts", .num 3), ("quality_warning", .bool true),
        ("final", .bool true)]) := by
    show (solverCriticGo env (.obj ts) e tr 1 (2 + 1) none none).res = _
    rw [go_iter_rejected_res env ts e tr 1 2 none none (dr 1) (cf 1) (dc 1)
      (qs 1) (cd 1) (cr 1) (im 1) (sd 1) (cdur 1) (hsolver 1) (hcritic 1) (hrej 1)]
    show (solverCriticGo env (.obj ts) e tr 2 (1 + 1) _ _).res = _
    rw [go_iter_rejected_res env ts e tr 2 1 _ _ (dr 2) (cf 2) (dc 2)
      (qs 2) (cd 2) (cr 2) (im 2) (sd 2) (cdur 2) (hsolver 2) (hcritic 2) (hrej 2)]
    show (solverCriticGo env (.obj ts) e tr 3 (0 + 1) _ _).res = _
    rw [go_iter_rejected_res env ts e tr 3 0 _ _ (dr 3) (cf 3) (dc 3)
      (qs 3) (cd 3) (cr 3) (im 3) (sd 3) (cdur 3) (hsolver 3) (hcritic 3) (hrej 3)]
    exact go_base_res env ts e tr 4 _ (dr 3) (cf 3) (dc 3) (.num (qs 3))
  have heff : (solverCriticGo env (.obj ts) e tr 1 MAX_SOLVER_ATTEMPTS none none).effects =
      .agentCall "solver" (solverMessage (.obj ts) e tr none) ::
      .agentCall "critic" (criticMsgOf ts (solverRespObj (dr 1) (cf 1) (dc 1))) ::
      .agentCall "solver" (solverMessage (.obj ts) e tr
          (some (prevAttemptObj (dr 1) (cf 1) (cr 1) (im 1)))) ::
      .agentCall "critic" (criticMsgOf ts (solverRespObj (dr 2) (cf 2) (dc 2))) ::
      .agentCall "solver" (solverMessage (.obj ts) e tr
          (some (prevAttemptObj (dr 2) (cf 2) (cr 2) (im 2)))) ::
      .agentCall "critic" (criticMsgOf ts (solverRespObj (dr 3) (cf 3) (dc 3))) ::
      (solverCriticGo env (.obj ts) e tr 4 0
        (some (prevAttemptObj (dr 3) (cf 3) (cr 3) (im 3)))
        (some (solverRespObj (dr 3) (cf 3) (dc 3), .num (qs 3)))).effects := by
    show (solverCriticGo env (.obj ts) e tr 1 (2 + 1) none none).effects = _
    rw [go_iter_rejected_eff env ts e tr 1 2 none none (dr 1) (cf 1) (dc 1)
      (qs 1) (cd 1) (cr 1) (im 1) (sd 1) (cdur 1) (hsolver 1) (hcritic 1) (hrej 1)]
    rw [go_iter_rejected_eff env ts e tr 2 1 _ _ (dr 2) (cf 2) (dc 2)
      (qs 2) (cd 2) (cr 2) (im 2) (sd 2) (cdur 2) (hsolver 2) (hcritic 2) (hrej 2)]
    rw [go_iter_rejected_eff env ts e tr 3 0 _ _ (dr 3) (cf 3) (dc 3)
      (qs 3) (cd 3) (cr 3) (im 3) (sd 3) (cdur 3) (hsolver 3) (hcritic 3) (hrej 3)]
  refine ⟨?_, fun p => rfl⟩
  rw [runLoop_effects env ts e tr tidv _ hgo htid, heff, go_base_eff]
  simp [callMessages, solverMessage, prevAttemptObj, Json.truthy]

/-- C7, witness: the concrete all-rejections run. -/
theorem C7_feedback_threading_witness :
    callMessages "solver" (runSolverCriticLoop envRejectAll
      (.obj [("ticket_id", .str "T-1"), ("title", .str "help")])
      (.obj []) (.obj [])).effects =
      [solverBaseMessage (.obj [("ticket_id", .str "T-1"), ("title", .str "help")])
         (.obj []) (.obj []),
       solverBaseMessage (.obj [("ticket_id", .str "T-1"), ("title", .str "help")])
         (.obj []) (.obj []) ++
         rejectionFeedback (prevAttemptObj "draft text" 0.95 "too vague" "add steps"),
       solverBaseMessage (.obj [("ticket_id", .str "T-1"), ("title", .str "help")])
         (.obj []) (.obj []) ++
         rejectionFeedback (prevAttemptObj "draft text" 0.95 "too vague" "add steps")] :=
  (C7_feedback_threading envRejectAll
    [("ticket_id", .str "T-1"), ("title", .str "help")] (.obj []) (.obj [])
    (.str "T-1") (fun _ => "draft text") (fun _ => 0.95) (fun _ => "auto_resolve")
    (fun _ => 0.5) (fun _ => "REJECTED") (fun _ => "too vague")
    (fun _ => "add steps") (fun _ => 7) (fun _ => 9)
    (fun _ => rfl) (fun _ => rfl) (fun _ => by simp) rfl).1

/-! ### Claim C6 -/

theorem bind_res_of_ok {α β : Type} {x : StageM α} {a : α}
    (hx : x.res = .ok a) (f : α → StageM β) :
    (x >>= f).res = (f a).res := by
  rcases x with ⟨xr, xs, xe⟩
  cases xr <;> simp_all [Bind.bind, Monad.toBind, instMonadStageM]

theorem bind_effects_of_ok {α β : Type} {x : StageM α} {a : α}
    (hx : x.res = .ok a) (f : α → StageM β) :
    (x >>= f).effects = x.effects ++ (f a).effects := by
  rcases x with ⟨xr, xs, xe⟩
  cases xr <;> simp_all [Bind.bind, Monad.toBind, instMonadStageM]

theorem judgeGhostStep_fire (env : PipeEnv) (ticket triage surge corr : Json)
    (hf : (surge.truthy && corr.truthy) = true) :
    judgeGhostStep env ticket triage surge corr =
      fireGhostTicketAlert env ticket triage := by
  simp [judgeGhostStep, hf]

theorem judgeGhostStep_skip (env : PipeEnv) (ticket triage surge corr : Json)
    (hf : (surge.truthy && corr.truthy) = false) :
    judgeGhostStep env ticket triage surge corr = pure () := by
  simp [judgeGhostStep, hf]

theorem truthy_null : Json.null.truthy = false := rfl

theorem truthy_arr_cons (x : Json) (xs : List Json) :
    (Json.arr (x :: xs)).truthy = true := by simp [Json.truthy]

set_option maxHeartbeats 2000000 in
/-- When the correlation object is well formed, the alert construction
succeeds and triggers exactly the `ghost_alert` workflow. -/
theorem fireGhost_fires (env : PipeEnv) (ts trs cs : List (String × Json))
    (hc : Json.lookup trs "deployment_correlation" = some (.obj cs))
    (hrel : relatedOk (Json.lookup cs "related_deployments") = true)
    (hsd : surgeDataOk trs = true) :
    (fireGhostTicketAlert env (.obj ts) (.obj trs)).res = .ok () ∧
    (fireGhostTicketAlert env (.obj ts) (.obj trs)).effects.any isGhostAlert
      = true := by
  have hsd2 : Json.lookup trs "surge_data" = none ∨
      ∃ sds, Json.lookup trs "surge_data" = some (.obj sds) := by
    rcases h : Json.lookup trs "surge_data" with _ | v
    · exact .inl rfl
    · rcases v <;> simp_all [surgeDataOk]
  have hrel2 : (Json.lookup cs "related_deployments" = none ∨
      Json.lookup cs "related_deployments" = some .null) ∨
      ∃ g rest, Json.lookup cs "related_deployments" =
        some (.arr (.obj g :: rest)) := by
    rcases h : Json.lookup cs "related_deployments" with _ | v
    · exact .inl (.inl rfl)
    · rcases v with _ | vb | vq | vs | (_ | ⟨(_ | b3 | q3 | s3 | x3 | g3), vrest⟩) | vfs <;>
        first
          | exact .inl (.inr rfl)
          | exact .inr ⟨_, _, rfl⟩
          | (rw [h] at hrel; simp [relatedOk] at hrel)
  rcases hsd2 with hsdl | ⟨sds, hsdl⟩ <;>
    rcases hrel2 with (hrl | hrl) | ⟨g, rest, hrl⟩ <;>
      simp [fireGhostTicketAlert, hc, hrl, hsdl, res_liftE_ok, res_emitStep,
        res_emitEffects, res_emitEffects0, effects_liftE_ok,
        effects_emitStep_bind, effects_emitEffects_bind, effects_emitEffects,
        Json.pyGetD, Json.pyGet, truthy_null, truthy_arr_cons, Json.pyIndex0,
        triggerWorkflow_eq, workflow_map, isGhostAlert, Json.lookup,
        List.lookup]

set_option maxRecDepth 10000 in
/-- C6, counterexample: a surge with a non-null but *empty* deployment
correlation object does not fire the ghost alert — the guard is Python
truthiness, not a null test, and `bool({}) = False`. -/
theorem C6_empty_correlation_cex :
    (Json.obj []).isNull = false ∧
    (runJudge envEmptyCorr cTicket (.obj [])).res =
      .ok (.obj [("surge_detected", .bool true),
                 ("deployment_correlation", .obj [])]) ∧
    (runJudge envEmptyCorr cTicket (.obj [])).effects.any isGhostAlert = false := by
  refine ⟨rfl, ?_, ?_⟩ <;> with_unfolding_all rfl

/-- The recorded workflow effect does not depend on whether the POST
fails: the `try/except` swallows the failure after logging. -/
theorem triggerWorkflow_fails_irrel (b : Bool) (wid : String)
    (payload : List (String × Json)) :
    triggerWorkflow b wid payload = triggerWorkflow false wid payload := by
  rw [triggerWorkflow_eq, triggerWorkflow_eq]

set_option maxHeartbeats 4000000 in
/-- C6, amended: (i) the pre-emptive surge alert fires exactly when both
the surge flag and the deployment correlation are truthy (so a non-null
empty correlation does not fire it), whatever the eventual routing
decision does — and (i) quantifies over every `env`, in particular over
runs whose workflow POST fails, so an alert failure never aborts the
run; (ii) the alert is fire-and-forget: the workflow trigger records
the same effect and raises nothing whether or not its POST fails. -/
theorem C6_ghost_alert_iff_truthy :
    (∀ (env : PipeEnv) (ts trs : List (String × Json)) (enr tidv s c : Json)
      (jd : Nat),
      env.judge = .ok ⟨.obj trs, jd⟩ →
      Json.lookup trs "surge_detected" = some s →
      Json.lookup trs "deployment_correlation" = some c →
      numFmtOk (Json.lookup trs "priority_score") = true →
      ghostCorrOk c = true →
      surgeDataOk trs = true →
      Json.lookup ts "ticket_id" = some tidv →
      (runJudge env (.obj ts) enr).res = .ok (.obj trs) ∧
      (runJudge env (.obj ts) enr).effects.any isGhostAlert =
        (s.truthy && c.truthy)) ∧
    (∀ (b : Bool) (wid : String) (payload : List (String × Json)),
      triggerWorkflow b wid payload = triggerWorkflow false wid payload) := by
  constructor
  · intro env ts trs enr tidv s c jd hjudge hs hc hscore hcorr hsd htid
    have hsc2 : Json.lookup trs "priority_score" = none ∨
        ∃ q, Json.lookup trs "priority_score" = some (.num q) := by
      rcases h : Json.lookup trs "priority_score" with _ | v
      · exact .inl rfl
      · rcases v <;> simp_all [numFmtOk]
    by_cases hf : (s.truthy && c.truthy) = true
    · have hcs : ∃ cs, c = Json.obj cs ∧
          relatedOk (Json.lookup cs "related_deployments") = true := by
        have hct : c.truthy = true := (Bool.and_eq_true_iff.mp hf).2
        rcases c with _ | cb | cq | cstr | cxs | cs <;>
          simp_all [ghostCorrOk, Json.truthy]
      obtain ⟨cs, rfl, hrel⟩ := hcs
      obtain ⟨hgres, hgany⟩ := fireGhost_fires env ts trs cs hc hrel hsd
      have hstep : judgeGhostStep env (.obj ts) (.obj trs) s (.obj cs) =
          fireGhostTicketAlert env (.obj ts) (.obj trs) :=
        judgeGhostStep_fire env (.obj ts) (.obj trs) s (.obj cs) hf
      rcases hsc2 with hps | ⟨q, hps⟩ <;>
        exact ⟨by
          simp [runJudge, hjudge, hs, hc, hps, hstep,
            bind_res_of_ok hgres, res_liftE_ok, res_emitStep, res_emitEffects,
            pure_res, Json.pyGetD, Json.pyGet, Json.pySubscript, htid, fmtFixed,
            updateTicketEs_eq],
        by
          simp [runJudge, hjudge, hs, hc, hps, hstep,
            bind_effects_of_ok hgres, hgany, effects_liftE_ok, effects_pure,
            effects_emitStep_bind, effects_emitEffects_bind, effects_liftE,
            Json.pyGetD, Json.pyGet, Json.pySubscript, htid, fmtFixed,
            updateTicketEs_eq, isGhostAlert, List.any_append, hf]⟩
    · have hstep : judgeGhostStep env (.obj ts) (.obj trs) s c = pure () :=
        judgeGhostStep_skip env (.obj ts) (.obj trs) s c (by simpa using hf)
      rcases hsc2 with hps | ⟨q, hps⟩ <;>
        exact ⟨by
          simp [runJudge, hjudge, hs, hc, hps, hstep, pure_bind, pure_res,
            res_liftE_ok, res_emitStep, res_emitEffects,
            Json.pyGetD, Json.pyGet, Json.pySubscript, htid, fmtFixed,
            updateTicketEs_eq],
        by
          simp [runJudge, hjudge, hs, hc, hps, hstep, pure_bind, effects_pure,
            effects_liftE_ok, effects_emitStep_bind, effects_emitEffects_bind,
            effects_liftE, Json.pyGetD, Json.pyGet, Json.pySubscript, htid,
            fmtFixed, updateTicketEs_eq, isGhostAlert, List.any_append, hf]⟩
  · intro b wid payload
    exact triggerWorkflow_fails_irrel b wid payload

set_option maxHeartbeats 1000000 in
/-- C6, witness: in a run whose workflow POST fails, a surge with a
populated correlation still completes the judge stage and fires the
alert, and the trigger records the same effect as a succeeding POST. -/
theorem C6_ghost_alert_iff_truthy_witness :
    (runJudge { envSurge with workflowFails := true }
      (.obj [("ticket_id", .str "T-1"), ("title", .str "help")])
      (.obj [])).res =
      .ok (.obj [("surge_detected", .bool true),
        ("deployment_correlation", .obj
          [("related_deployments", .arr
             [.obj [("deployment_id", .str "D-42"), ("service", .str "api"),
                    ("rollback_available", .bool true)]])])]) ∧
    (runJudge { envSurge with workflowFails := true }
      (.obj [("ticket_id", .str "T-1"), ("title", .str "help")])
      (.obj [])).effects.any isGhostAlert = true ∧
    triggerWorkflow true "ghost_alert" [] =
      triggerWorkflow false "ghost_alert" [] := by
  have h := C6_ghost_alert_iff_truthy.1 { envSurge with workflowFails := true }
      [("ticket_id", .str "T-1"), ("title", .str "help")]
      [("surge_detected", .bool true),
       ("deployment_correlation", .obj
          [("related_deployments", .arr
             [.obj [("deployment_id", .str "D-42"), ("service", .str "api"),
                    ("rollback_available", .bool true)]])])]
      (.obj []) (.str "T-1") (.bool true)
      (.obj [("related_deployments", .arr
        [.obj [("deployment_id", .str "D-42"), ("service", .str "api"),
               ("rollback_available", .bool true)]])])
      5 rfl rfl rfl rfl rfl rfl rfl
  refine ⟨h.1, ?_, C6_ghost_alert_iff_truthy.2 true "ghost_alert" []⟩
  have h2 := h.2
  simpa [Json.truthy] using h2

/-- C9, witness: an inverted configuration is accepted. -/
theorem C9_thresholds_accepted_unvalidated_witness :
    loadThresholds ⟨some "0.50", some "0.90", some "0.75"⟩ =
      .ok (0.5, 0.9, 0.75) ∧ ¬((0.9 : ℚ) ≤ 0.5) :=
  ⟨C9_thresholds_accepted_unvalidated "0.50" "0.90" "0.75" 0.5 0.9 0.75
    (by with_unfolding_all rfl) (by with_unfolding_all rfl)
    (by with_unfolding_all rfl), by norm_num⟩

end SupportIQ
